import Mathlib

/-!
Verification of the HomeRecoEngine house-recommendation service.

This file embeds the search/insert pipeline of
`api/db/services/house_reco_service.py` and the vectorization helpers of
`api/utils/vectorization_utils.py` as Lean definitions and proves or refutes
the specification claims about them.

Modelling conventions:
* Python floats are modelled as real numbers (`ℝ`).
* Python dictionaries with a fixed set of keys become structures whose fields
  are `Option`-valued; for the `location` dictionary, where the code
  distinguishes key *presence* (`'k' in d`) from key *value* (`d.get('k')`),
  fields are `Option (Option ℝ)`: the outer layer is presence, the inner layer
  is the possibly-`None` value.
* The Milvus filter string assembled by `_build_filter_expression` is modelled
  as an abstract syntax tree (`Cond`); each `conditions.append(f"...")` in the
  source becomes appending the corresponding `Cond` value, and
  `' AND '.join(conditions) if conditions else None` becomes
  `match conditions with | [] => none | cs => some cs`.
* The Milvus client and the embedding model are abstract `Engine`/`Vectorizer`
  records whose operations return `Except String _`; a Python exception raised
  by a backend call is an `Except.error`, and a `try/except` block is a `match`
  on that value.
* `str.lower()` / `str.strip()` are modelled character-wise (`py_lower`,
  `py_strip_empty`), `round(x, 2)` as decimal rounding half-to-even
  (`pyRound2`), and Python slice `l[a:b]` as `pySlice`.
-/

open Real

noncomputable section

/-! ### Python-semantics helpers -/

/-- Python `a or d` for an optional string `a` and a string default `d`:
`None` and the empty string are falsy. -/
def pyOrStr (a : Option String) (d : String) : String :=
  match a with
  | some s => if s = "" then d else s
  | none => d

/-- Python `a or b` for two optional strings: returns `b` whenever `a` is
`None` or empty. -/
def pyOr (a b : Option String) : Option String :=
  match a with
  | some s => if s = "" then b else some s
  | none => b

/-- Python slice `l[a:b]` for `0 ≤ a ≤ b`. -/
def pySlice (l : List α) (a b : ℕ) : List α :=
  (l.take b).drop a

/-- Python `str.lower()` (character-wise). -/
def py_lower (s : String) : String :=
  String.mk (s.data.map Char.toLower)

/-- Whether Python `s.strip()` is empty, i.e. every character of `s` is
whitespace. -/
def py_strip_empty (s : String) : Bool :=
  s.data.all Char.isWhitespace

/-- Round to the nearest integer, ties to even — the rounding used by
Python `round`. -/
def roundHalfEven (x : ℝ) : ℤ :=
  if x - ⌊x⌋ = 1 / 2 then (if Even ⌊x⌋ then ⌊x⌋ else ⌊x⌋ + 1) else round x

/-- Python `round(x, 2)`: round to two decimal places, ties to even. -/
def pyRound2 (x : ℝ) : ℝ :=
  (roundHalfEven (x * 100) : ℤ) / 100

/-- `math.radians`. -/
def radians (x : ℝ) : ℝ :=
  x * Real.pi / 180

/-- `math.atan2` on real arguments. -/
def atan2 (y x : ℝ) : ℝ :=
  if 0 < x then Real.arctan (y / x)
  else if x < 0 then
    (if 0 ≤ y then Real.arctan (y / x) + Real.pi else Real.arctan (y / x) - Real.pi)
  else if 0 < y then Real.pi / 2
  else if y < 0 then -(Real.pi / 2)
  else 0

/-! ### The filter-expression AST

`_build_filter_expression` assembles a list of atomic Milvus conditions and
joins them with `AND`; we keep the list of conditions.  A parenthesized
sub-expression (the geo filters) is a `Cond.group`. -/

/-- The sixteen string attributes filtered by simple equality
(`simple_string_fields` in the source; `type` is named `typeField`). -/
inductive SimpleField
  | typeField
  | yearCompletion
  | transactionOwnership
  | parkingSpaceRatio
  | managementCompany
  | developer
  | decorationStyle
  | decorationStatus
  | waterElectricity
  | hasElevator
  | hasParking
  | orientation
  | buildingAge
  | floor
  | rentalMode
  | paymentMethod
  deriving DecidableEq

/-- `simple_string_fields`, in source order. -/
def simple_string_fields : List SimpleField :=
  [SimpleField.typeField, SimpleField.yearCompletion, SimpleField.transactionOwnership,
   SimpleField.parkingSpaceRatio, SimpleField.managementCompany, SimpleField.developer,
   SimpleField.decorationStyle, SimpleField.decorationStatus, SimpleField.waterElectricity,
   SimpleField.hasElevator, SimpleField.hasParking, SimpleField.orientation,
   SimpleField.buildingAge, SimpleField.floor, SimpleField.rentalMode,
   SimpleField.paymentMethod]

/-- The numeric attributes of a stored listing that appear in `>=`/`<=`
filter conditions. -/
inductive NumField
  | minArea
  | maxArea
  | minUnitPrice
  | maxUnitPrice
  | minTotalPrice
  | maxTotalPrice
  | rent
  | propertyRightDuration
  | greeningRate
  | plotRatio
  | managementFee
  | latitude
  | longitude
  deriving DecidableEq

/-- One atomic condition of the compiled filter expression. -/
inductive Cond
  | catEq (v : ℤ)
  | catIn (vs : List ℤ)
  | nameEq (s : String)
  | nameIn (ss : List String)
  | regionEq (s : String)
  | simpleEq (f : SimpleField) (s : String)
  | tagsLike (s : String)
  | ge (f : NumField) (v : ℝ)
  | le (f : NumField) (v : ℝ)
  | group (cs : List Cond)

/-! ### Search parameters -/

/-- `category` may arrive as a scalar or as a list. -/
inductive CategoryParam
  | scalar (v : ℤ)
  | multi (vs : List ℤ)

/-- `name` may arrive as a string or as a list of strings. -/
inductive NameParam
  | single (s : String)
  | multi (ss : List String)

/-- A two-key range dictionary (`{min_*, max_*}`); a key that is absent or
`None` is `none`. -/
structure RangeQ where
  lo : Option ℝ
  hi : Option ℝ

/-- The `location` dictionary.  The outer `Option` is key presence, the inner
one the possibly-`None` value (the source distinguishes `'k' in location`
from `location.get('k') is not None`). -/
structure LocationParam where
  centerLongitude : Option (Option ℝ)
  centerLatitude : Option (Option ℝ)
  radiusKm : Option (Option ℝ)
  minLongitude : Option (Option ℝ)
  maxLongitude : Option (Option ℝ)
  minLatitude : Option (Option ℝ)
  maxLatitude : Option (Option ℝ)
  minJd : Option (Option ℝ)
  maxJd : Option (Option ℝ)
  minWd : Option (Option ℝ)
  maxWd : Option (Option ℝ)

/-- Python truthiness of the `location` dictionary: it is truthy iff it has at
least one key. -/
def LocationParam.truthy (loc : LocationParam) : Bool :=
  loc.centerLongitude.isSome || loc.centerLatitude.isSome || loc.radiusKm.isSome ||
  loc.minLongitude.isSome || loc.maxLongitude.isSome ||
  loc.minLatitude.isSome || loc.maxLatitude.isSome ||
  loc.minJd.isSome || loc.maxJd.isSome || loc.minWd.isSome || loc.maxWd.isSome

/-- The `hybrid_weights` dictionary. -/
structure HybridWeights where
  vector : Option ℝ
  bm25 : Option ℝ
  normScore : Option Bool

instance : Inhabited HybridWeights :=
  ⟨⟨none, none, none⟩⟩

/-- The `search_params` dictionary passed to `search_houses`.  A key that is
absent or `None` is `none` (the source always tests `.get(k)` / `is not
None`, which cannot tell these apart). -/
structure SearchParams where
  category : Option CategoryParam
  name : Option NameParam
  region : Option String
  simple : SimpleField → Option String
  preferencesTags : Option String
  areaRange : Option RangeQ
  unitPriceRange : Option RangeQ
  totalPriceRange : Option RangeQ
  rentRange : Option RangeQ
  propertyRightDurationRange : Option RangeQ
  greeningRateRange : Option RangeQ
  plotRatioRange : Option RangeQ
  managementFeeRange : Option RangeQ
  location : Option LocationParam
  retrievalType : Option String
  userQueryText : Option String
  semanticStr : Option String
  confidence : Option ℝ
  hybridWeights : Option HybridWeights

/-- The empty `search_params` dictionary. -/
def emptyParams : SearchParams :=
  { category := none, name := none, region := none, simple := fun _ => none,
    preferencesTags := none, areaRange := none, unitPriceRange := none,
    totalPriceRange := none, rentRange := none, propertyRightDurationRange := none,
    greeningRateRange := none, plotRatioRange := none, managementFeeRange := none,
    location := none, retrievalType := none, userQueryText := none,
    semanticStr := none, confidence := none, hybridWeights := none }

/-! ### The filter compiler (`_build_filter_expression` and the geo helpers) -/

/-- The `category` block of `_build_filter_expression`: equality for a scalar,
set membership for a non-empty list, nothing for an empty list. -/
def cat_conds (p : SearchParams) : List Cond :=
  match p.category with
  | some (CategoryParam.multi vs) =>
      match vs with
      | [] => []
      | _ => [Cond.catIn vs]
  | some (CategoryParam.scalar v) => [Cond.catEq v]
  | none => []

/-- The `name` block: membership for a non-empty list, equality for a
non-empty string, nothing otherwise. -/
def name_conds (p : SearchParams) : List Cond :=
  match p.name with
  | some (NameParam.multi ss) =>
      match ss with
      | [] => []
      | _ => [Cond.nameIn ss]
  | some (NameParam.single s) => if s = "" then [] else [Cond.nameEq s]
  | none => []

/-- The `region` block. -/
def region_conds (p : SearchParams) : List Cond :=
  match p.region with
  | some s => if s = "" then [] else [Cond.regionEq s]
  | none => []

/-- The loop over `simple_string_fields`. -/
def simple_conds (p : SearchParams) : List Cond :=
  simple_string_fields.filterMap fun f =>
    match p.simple f with
    | some s => if s = "" then none else some (Cond.simpleEq f s)
    | none => none

/-- The `preferences_tags` block (`LIKE "%...%"`). -/
def tag_conds (p : SearchParams) : List Cond :=
  match p.preferencesTags with
  | some s => if s = "" then [] else [Cond.tagsLike s]
  | none => []

/-- Overlap test against a min/max attribute pair: `max_attr >= lo` when the
query minimum is present, then `min_attr <= hi` when the query maximum is
present. -/
def overlap_conds (fmax fmin : NumField) (q : RangeQ) : List Cond :=
  (match q.lo with
   | some v => [Cond.ge fmax v]
   | none => []) ++
  (match q.hi with
   | some v => [Cond.le fmin v]
   | none => [])

/-- Direct interval test against a single numeric attribute:
`attr >= lo` and `attr <= hi`, each half only when present. -/
def bound_conds (f : NumField) (q : RangeQ) : List Cond :=
  (match q.lo with
   | some v => [Cond.ge f v]
   | none => []) ++
  (match q.hi with
   | some v => [Cond.le f v]
   | none => [])

/-- The `area_range` block: `max_area >= min` and `min_area <= max`. -/
def area_conds (p : SearchParams) : List Cond :=
  match p.areaRange with
  | some q => overlap_conds NumField.maxArea NumField.minArea q
  | none => []

/-- The `unit_price_range` block. -/
def unit_price_conds (p : SearchParams) : List Cond :=
  match p.unitPriceRange with
  | some q => overlap_conds NumField.maxUnitPrice NumField.minUnitPrice q
  | none => []

/-- The `total_price_range` block. -/
def total_price_conds (p : SearchParams) : List Cond :=
  match p.totalPriceRange with
  | some q => overlap_conds NumField.maxTotalPrice NumField.minTotalPrice q
  | none => []

/-- The `rent_range` block: both halves test the single `rent` attribute. -/
def rent_conds (p : SearchParams) : List Cond :=
  match p.rentRange with
  | some q => bound_conds NumField.rent q
  | none => []

/-- The `property_right_duration_range` block. -/
def property_right_duration_conds (p : SearchParams) : List Cond :=
  match p.propertyRightDurationRange with
  | some q => bound_conds NumField.propertyRightDuration q
  | none => []

/-- The `greening_rate_range` block. -/
def greening_rate_conds (p : SearchParams) : List Cond :=
  match p.greeningRateRange with
  | some q => bound_conds NumField.greeningRate q
  | none => []

/-- The `plot_ratio_range` block. -/
def plot_ratio_conds (p : SearchParams) : List Cond :=
  match p.plotRatioRange with
  | some q => bound_conds NumField.plotRatio q
  | none => []

/-- The `management_fee_range` block. -/
def management_fee_conds (p : SearchParams) : List Cond :=
  match p.managementFeeRange with
  | some q => bound_conds NumField.managementFee q
  | none => []

/-! #### Geo filters -/

/-- The bounding box computed by `_build_circle_filter`. -/
structure Box where
  minLat : ℝ
  maxLat : ℝ
  minLng : ℝ
  maxLng : ℝ

/-- The degree-approximation bounding box of a circle, as computed by
`_build_circle_filter`: one latitude degree is taken as 111.32 km and one
longitude degree as `111.32 · cos(center_lat)` km. -/
def circle_box (center_lng center_lat radius_km : ℝ) : Box :=
  let lat_degree_km : ℝ := 111.32
  let lng_degree_km : ℝ := 111.32 * Real.cos (radians center_lat)
  let lat_delta := radius_km / lat_degree_km
  let lng_delta := radius_km / lng_degree_km
  { minLat := center_lat - lat_delta, maxLat := center_lat + lat_delta,
    minLng := center_lng - lng_delta, maxLng := center_lng + lng_delta }

/-- Membership of a point in a box. -/
def Box.contains (b : Box) (lat lng : ℝ) : Prop :=
  b.minLat ≤ lat ∧ lat ≤ b.maxLat ∧ b.minLng ≤ lng ∧ lng ≤ b.maxLng

/-- `_build_circle_filter`: the four bounding-box conditions, or `None` when
any of the three circle values is missing. -/
def build_circle_filter (loc : LocationParam) : Option Cond :=
  match loc.centerLongitude.join, loc.centerLatitude.join, loc.radiusKm.join with
  | some clng, some clat, some r =>
      let b := circle_box clng clat r
      some (Cond.group
        [Cond.ge NumField.latitude b.minLat, Cond.le NumField.latitude b.maxLat,
         Cond.ge NumField.longitude b.minLng, Cond.le NumField.longitude b.maxLng])
  | _, _, _ => none

/-- The conditions of `_build_rectangle_filter`, in source order. -/
def rect_conds (loc : LocationParam) : List Cond :=
  (match loc.minLongitude.join with
   | some v => [Cond.ge NumField.longitude v]
   | none => []) ++
  (match loc.maxLongitude.join with
   | some v => [Cond.le NumField.longitude v]
   | none => []) ++
  (match loc.minLatitude.join with
   | some v => [Cond.ge NumField.latitude v]
   | none => []) ++
  (match loc.maxLatitude.join with
   | some v => [Cond.le NumField.latitude v]
   | none => [])

/-- `_build_rectangle_filter`. -/
def build_rectangle_filter (loc : LocationParam) : Option Cond :=
  match rect_conds loc with
  | [] => none
  | cs => some (Cond.group cs)

/-- The conditions of `_build_rectangle_filter_legacy` (old key names). -/
def rect_conds_legacy (loc : LocationParam) : List Cond :=
  (match loc.minJd.join with
   | some v => [Cond.ge NumField.longitude v]
   | none => []) ++
  (match loc.maxJd.join with
   | some v => [Cond.le NumField.longitude v]
   | none => []) ++
  (match loc.minWd.join with
   | some v => [Cond.ge NumField.latitude v]
   | none => []) ++
  (match loc.maxWd.join with
   | some v => [Cond.le NumField.latitude v]
   | none => [])

/-- `_build_rectangle_filter_legacy`. -/
def build_rectangle_filter_legacy (loc : LocationParam) : Option Cond :=
  match rect_conds_legacy loc with
  | [] => none
  | cs => some (Cond.group cs)

/-- `_is_circle_search`: all three circle keys are *present* (their values may
still be `None`). -/
def is_circle_search (loc : LocationParam) : Bool :=
  loc.centerLongitude.isSome && loc.centerLatitude.isSome && loc.radiusKm.isSome

/-- Whether any rectangle key is present. -/
def rect_keys_present (loc : LocationParam) : Bool :=
  loc.minLongitude.isSome || loc.maxLongitude.isSome ||
  loc.minLatitude.isSome || loc.maxLatitude.isSome

/-- Whether any legacy rectangle key is present. -/
def legacy_keys_present (loc : LocationParam) : Bool :=
  loc.minJd.isSome || loc.maxJd.isSome || loc.minWd.isSome || loc.maxWd.isSome

/-- `_build_location_filter`: circle first, then rectangle, then the legacy
rectangle, else nothing. -/
def build_location_filter (loc : LocationParam) : Option Cond :=
  if is_circle_search loc then build_circle_filter loc
  else if rect_keys_present loc then build_rectangle_filter loc
  else if legacy_keys_present loc then build_rectangle_filter_legacy loc
  else none

/-- The `location` block of `_build_filter_expression` (guarded by the
truthiness of the `location` dictionary). -/
def location_conds (p : SearchParams) : List Cond :=
  match p.location with
  | some loc =>
      if loc.truthy then
        match build_location_filter loc with
        | some c => [c]
        | none => []
      else []
  | none => []

/-- The full condition list of `_build_filter_expression`, in source order. -/
def build_conditions (p : SearchParams) : List Cond :=
  cat_conds p ++ name_conds p ++ region_conds p ++ simple_conds p ++ tag_conds p ++
  area_conds p ++ unit_price_conds p ++ total_price_conds p ++ rent_conds p ++
  property_right_duration_conds p ++ greening_rate_conds p ++ plot_ratio_conds p ++
  management_fee_conds p ++ location_conds p

/-- `_build_filter_expression`: the conjunction of all conditions, or `None`
when no condition was produced. -/
def build_filter_expression (p : SearchParams) : Option (List Cond) :=
  match build_conditions p with
  | [] => none
  | cs => some cs

/-- `calculate_distance_km`: the haversine distance with Earth radius 6371 km,
coordinates in degrees. -/
def calculate_distance_km (lat1 lng1 lat2 lng2 : ℝ) : ℝ :=
  let R : ℝ := 6371.0
  let lat1_rad := radians lat1
  let lng1_rad := radians lng1
  let lat2_rad := radians lat2
  let lng2_rad := radians lng2
  let dlat := lat2_rad - lat1_rad
  let dlng := lng2_rad - lng1_rad
  let a := Real.sin (dlat / 2) ^ 2 +
    Real.cos lat1_rad * Real.cos lat2_rad * Real.sin (dlng / 2) ^ 2
  let c := 2 * atan2 (Real.sqrt a) (Real.sqrt (1 - a))
  R * c

/-! ### The search executor (`search_houses`) -/

/-- The visible (vector-free) fields of a stored listing, as returned through
the output-field whitelist.  Descriptive string attributes not consulted by
any post-processing step are summarised by `semanticStr`/`address`-style
representative fields; they are carried through the pipeline unchanged. -/
structure HouseDoc where
  id : String
  category : ℤ
  name : String
  region : String
  address : String
  minArea : ℝ
  maxArea : ℝ
  minUnitPrice : ℝ
  maxUnitPrice : ℝ
  minTotalPrice : ℝ
  maxTotalPrice : ℝ
  rent : ℝ
  longitude : ℝ
  latitude : ℝ
  semanticStr : String

/-- One Milvus search hit: a score (`hit['distance']`) and the entity. -/
structure Hit where
  distance : ℝ
  entity : HouseDoc

/-- One serialized result row: the entity fields plus the optional
`similarity_score` and `distance_km` keys added by the pipeline. -/
structure OutHouse where
  doc : HouseDoc
  similarityScore : Option ℝ
  distanceKm : Option ℝ

/-- Serialization of a scored hit (`house_data['similarity_score'] = score`
followed by `_serialize_house_data`, which drops the vector fields). -/
def hit_to_result (h : Hit) : OutHouse :=
  { doc := h.entity, similarityScore := some h.distance, distanceKm := none }

/-- Serialization of a pure-filter query row (no score key). -/
def row_to_result (d : HouseDoc) : OutHouse :=
  { doc := d, similarityScore := none, distanceKm := none }

/-- The abstract storage engine (the Milvus client).  Each operation receives
the arguments the source passes and may fail with a message. -/
structure Engine where
  vectorSearch : List ℝ → Option (List Cond) → ℕ → Option ℝ → Except String (List Hit)
  bm25Search : String → Option (List Cond) → ℕ → Except String (List Hit)
  hybridSearch : List ℝ → String → Option ℝ → List Cond → ℕ → ℝ → ℝ → Bool →
    Except String (List Hit)
  query : List Cond → ℕ → ℕ → Except String (List HouseDoc)

/-- The abstract embedding model behind `VectorizationUtils`. -/
structure Vectorizer where
  encode : String → Except String (List ℝ)

/-- The zero vector returned when vectorization is unavailable or fails
(`[0.0] * 1024`). -/
def zero_vector : List ℝ :=
  List.replicate 1024 0

/-- `create_query_vector`: empty (all-whitespace) text or an encoder failure
yields the zero vector; otherwise the encoder output. -/
def create_query_vector (vz : Vectorizer) (query_text : String) : List ℝ :=
  if py_strip_empty query_text then zero_vector
  else
    match vz.encode query_text with
    | Except.ok v => v
    | Except.error _ => zero_vector

/-- `_build_milvus_search_params`: the varying part is the optional
confidence threshold passed as the `radius` parameter (the metric type is
constant `COSINE`). -/
def build_milvus_search_params (confidence : Option ℝ) : Option ℝ :=
  confidence

/-- Python truthiness of the compiled filter (`filter_expr if filter_expr
else None`): an empty conjunction counts as absent. -/
def pyTruthyFilter : Option (List Cond) → Option (List Cond)
  | some [] => none
  | x => x

/-- The retrieval dispatch of `search_houses`: which backing search runs and
what it returns, `none` when no query text is available or the retrieval type
is unknown.  `fetch_limit` is the `limit + offset` over-fetch passed by the
caller. -/
def run_retrieval (eng : Engine) (vz : Vectorizer) (filter_expr : Option (List Cond))
    (retrieval_type : String) (query_text : Option String) (confidence : Option ℝ)
    (hybrid_weights : Option HybridWeights) (fetch_limit : ℕ) :
    Except String (Option (List Hit)) :=
  match query_text with
  | some qt =>
    if retrieval_type = "vector" then do
      let query_vector := create_query_vector vz qt
      let hits ← eng.vectorSearch query_vector (pyTruthyFilter filter_expr) fetch_limit
        (build_milvus_search_params confidence)
      pure (some hits)
    else if retrieval_type = "bm25" then do
      let hits ← eng.bm25Search qt (pyTruthyFilter filter_expr) fetch_limit
      pure (some hits)
    else if retrieval_type = "hybrid" then do
      let query_vector := create_query_vector vz qt
      let hw := hybrid_weights.getD default
      let dense_weight := hw.vector.getD 0.5
      let sparse_weight := hw.bm25.getD 0.5
      let norm_score_flag := hw.normScore.getD true
      match eng.hybridSearch query_vector qt (build_milvus_search_params confidence)
          (filter_expr.getD []) fetch_limit dense_weight sparse_weight norm_score_flag with
      | Except.ok hits => pure (some hits)
      | Except.error _ => do
          let hits ← eng.vectorSearch query_vector (pyTruthyFilter filter_expr) fetch_limit
            (build_milvus_search_params confidence)
          pure (some hits)
    else pure none
  | none => pure none

/-- Result assembly: serialize the hits and slice `results[offset:offset +
limit]`, or fall back to a pure filter query (delegating `limit`/`offset` to
the engine), or return the empty list when there is no filter at all. -/
def assemble_results (eng : Engine) (vz : Vectorizer) (filter_expr : Option (List Cond))
    (retrieval_type : String) (query_text : Option String) (confidence : Option ℝ)
    (hybrid_weights : Option HybridWeights) (limit offset : ℕ) :
    Except String (List OutHouse) := do
  let search_results ← run_retrieval eng vz filter_expr retrieval_type query_text
    confidence hybrid_weights (limit + offset)
  match search_results with
  | some hits => pure (pySlice (hits.map hit_to_result) offset (offset + limit))
  | none =>
    match pyTruthyFilter filter_expr with
    | some f => do
        let rows ← eng.query f limit offset
        pure (rows.map row_to_result)
    | none => pure []

/-- The sort key used by `_apply_circle_distance_filter`
(`x.get('distance_km', float('inf'))`). -/
def sort_key_distance (x : OutHouse) : WithTop ℝ :=
  match x.distanceKm with
  | some d => (d : WithTop ℝ)
  | none => (⊤ : WithTop ℝ)

/-- `_apply_circle_distance_filter`: keep the candidates whose exact haversine
distance from the center is at most the radius, attach the distance rounded to
two decimals as `distance_km`, sort ascending by that key and truncate to
`limit`.  When one of the circle values is `None` the Python body raises and
the `except` branch returns `results[:limit]`. -/
def apply_circle_distance_filter (loc : LocationParam) (results : List OutHouse)
    (limit : ℕ) : List OutHouse :=
  match loc.centerLongitude.join, loc.centerLatitude.join, loc.radiusKm.join with
  | some center_lng, some center_lat, some radius_km =>
      let filtered_results := results.filterMap fun house =>
        let distance := calculate_distance_km center_lat center_lng
          house.doc.latitude house.doc.longitude
        if distance ≤ radius_km then
          some { house with distanceKm := some (pyRound2 distance) }
        else none
      let sorted := filtered_results.mergeSort fun a b =>
        decide (sort_key_distance a ≤ sort_key_distance b)
      sorted.take limit
  | _, _, _ => results.take limit

/-- The similarity sort key (`x.get('similarity_score', 0.0)`). -/
def sim_score_key (x : OutHouse) : ℝ :=
  x.similarityScore.getD 0

/-- The non-geo ordering step: when the first result carries a
`similarity_score`, sort descending by it (stably); otherwise leave the list
untouched. -/
def sort_stage (results : List OutHouse) : List OutHouse :=
  match results with
  | [] => []
  | r :: rs =>
    if r.similarityScore.isSome then
      (r :: rs).mergeSort fun a b => decide (sim_score_key b ≤ sim_score_key a)
    else r :: rs

/-- The final ordering dispatch of `search_houses`: the circle post-processor
when a truthy `location` with all three circle keys is present, otherwise the
similarity sort. -/
def order_stage (location : Option LocationParam) (limit : ℕ)
    (results : List OutHouse) : List OutHouse :=
  match location with
  | some loc =>
      if loc.truthy && is_circle_search loc then
        apply_circle_distance_filter loc results limit
      else sort_stage results
  | none => sort_stage results

/-- The body of `search_houses` (everything inside the outer `try`). -/
def search_houses_exc (eng : Engine) (vz : Vectorizer) (p : SearchParams)
    (limit offset : ℕ) : Except String (List OutHouse) := do
  let filter_expr := build_filter_expression p
  let retrieval_type := py_lower (pyOrStr p.retrievalType "vector")
  let query_text := pyOr p.userQueryText p.semanticStr
  let results ← assemble_results eng vz filter_expr retrieval_type query_text
    p.confidence p.hybridWeights limit offset
  pure (order_stage p.location limit results)

/-- `search_houses`: the outer `except` swallows every failure and returns the
empty list. -/
def search_houses (eng : Engine) (vz : Vectorizer) (p : SearchParams)
    (limit offset : ℕ) : List OutHouse :=
  match search_houses_exc eng vz p limit offset with
  | Except.ok r => r
  | Except.error _ => []

/-- The assembled (pre-ordering) result list, with a failure read as the empty
list; `search_houses` is `order_stage` applied to it. -/
def assembled_results (eng : Engine) (vz : Vectorizer) (p : SearchParams)
    (limit offset : ℕ) : List OutHouse :=
  match assemble_results eng vz (build_filter_expression p)
      (py_lower (pyOrStr p.retrievalType "vector")) (pyOr p.userQueryText p.semanticStr)
      p.confidence p.hybridWeights limit offset with
  | Except.ok r => r
  | Except.error _ => []

/-! ### The insert path (`_preprocess_house_data` and the vectorizer) -/

/-- A value stored in the preprocessed house dictionary. -/
inductive FieldVal
  | str (s : String)
  | num (r : ℝ)
  | int (n : ℤ)
  | strList (l : List String)

/-- Python truthiness of a dictionary value. -/
def FieldVal.truthy : FieldVal → Bool
  | FieldVal.str s => s ≠ ""
  | FieldVal.num r => decide (r ≠ 0)
  | FieldVal.int n => n ≠ 0
  | FieldVal.strList l => l ≠ []

/-- Python `str(value)`.  Rendering of numbers is parameterised by `numToStr`
(decimal formatting is irrelevant to every theorem below); a list renders via
its elements. -/
def FieldVal.toStr (numToStr : ℝ → String) : FieldVal → String
  | FieldVal.str s => s
  | FieldVal.num r => numToStr r
  | FieldVal.int n => toString n
  | FieldVal.strList l => "[" ++ String.intercalate ", " l ++ "]"

/-- The raw house dictionary accepted by `insert_house_data` (keys absent or
`None` are `none`; values arrive already typed from the API layer). -/
structure RawHouse where
  id : Option String
  category : Option ℤ
  name : Option String
  region : Option String
  address : Option String
  longitude : Option ℝ
  latitude : Option ℝ
  semantic_str : Option String
  typeField : Option String
  year_completion : Option String
  transaction_ownership : Option String
  parking_space_ratio : Option String
  management_company : Option String
  developer : Option String
  decoration_style : Option String
  decoration_status : Option String
  water_electricity : Option String
  has_elevator : Option String
  has_parking : Option String
  orientation : Option String
  building_age : Option String
  furniture_facilities : Option String
  floor : Option String
  rental_mode : Option String
  payment_method : Option String
  preferences_tags : Option String
  min_area : Option ℝ
  max_area : Option ℝ
  min_unit_price : Option ℝ
  max_unit_price : Option ℝ
  min_total_price : Option ℝ
  max_total_price : Option ℝ
  rent : Option ℝ
  greening_rate : Option ℝ
  plot_ratio : Option ℝ
  management_fee : Option ℝ
  property_right_duration : Option ℤ
  lease_term : Option ℤ

/-- `as_str` from `_preprocess_house_data`: `None`, all-whitespace and the
literal string `'nan'` become the empty string. -/
def as_str (v : Option String) : String :=
  match v with
  | some s => if py_strip_empty s ∨ s = "nan" then "" else s
  | none => ""

/-- `as_int`: `None` (whose `int()` raises) becomes `0`. -/
def as_int (v : Option ℤ) : ℤ :=
  match v with
  | some n => n
  | none => 0

/-- `as_float`: `None` becomes `0.0` (the string-cleaning branch applies to
string inputs, which the API layer has already converted). -/
def as_float (v : Option ℝ) : ℝ :=
  match v with
  | some r => r
  | none => 0

/-- The dictionary built by `_preprocess_house_data` before the vector is
attached: exactly the keys the source sets, looked up by name. -/
def preprocess_dict (h : RawHouse) : String → Option FieldVal := fun k =>
  if k = "id" then some (FieldVal.str (as_str h.id))
  else if k = "category" then some (FieldVal.int (as_int h.category))
  else if k = "name" then some (FieldVal.str (as_str h.name))
  else if k = "region" then some (FieldVal.str (as_str h.region))
  else if k = "address" then some (FieldVal.str (as_str h.address))
  else if k = "longitude" then some (FieldVal.num (as_float h.longitude))
  else if k = "latitude" then some (FieldVal.num (as_float h.latitude))
  else if k = "semantic_str" then some (FieldVal.str (as_str h.semantic_str))
  else if k = "type" then some (FieldVal.str (as_str h.typeField))
  else if k = "year_completion" then some (FieldVal.str (as_str h.year_completion))
  else if k = "transaction_ownership" then some (FieldVal.str (as_str h.transaction_ownership))
  else if k = "parking_space_ratio" then some (FieldVal.str (as_str h.parking_space_ratio))
  else if k = "management_company" then some (FieldVal.str (as_str h.management_company))
  else if k = "developer" then some (FieldVal.str (as_str h.developer))
  else if k = "decoration_style" then some (FieldVal.str (as_str h.decoration_style))
  else if k = "decoration_status" then some (FieldVal.str (as_str h.decoration_status))
  else if k = "water_electricity" then some (FieldVal.str (as_str h.water_electricity))
  else if k = "has_elevator" then some (FieldVal.str (as_str h.has_elevator))
  else if k = "has_parking" then some (FieldVal.str (as_str h.has_parking))
  else if k = "orientation" then some (FieldVal.str (as_str h.orientation))
  else if k = "building_age" then some (FieldVal.str (as_str h.building_age))
  else if k = "furniture_facilities" then some (FieldVal.str (as_str h.furniture_facilities))
  else if k = "floor" then some (FieldVal.str (as_str h.floor))
  else if k = "rental_mode" then some (FieldVal.str (as_str h.rental_mode))
  else if k = "payment_method" then some (FieldVal.str (as_str h.payment_method))
  else if k = "preferences_tags" then some (FieldVal.str (as_str h.preferences_tags))
  else if k = "min_area" then some (FieldVal.num (as_float h.min_area))
  else if k = "max_area" then some (FieldVal.num (as_float h.max_area))
  else if k = "min_unit_price" then some (FieldVal.num (as_float h.min_unit_price))
  else if k = "max_unit_price" then some (FieldVal.num (as_float h.max_unit_price))
  else if k = "min_total_price" then some (FieldVal.num (as_float h.min_total_price))
  else if k = "max_total_price" then some (FieldVal.num (as_float h.max_total_price))
  else if k = "rent" then some (FieldVal.num (as_float h.rent))
  else if k = "greening_rate" then some (FieldVal.num (as_float h.greening_rate))
  else if k = "plot_ratio" then some (FieldVal.num (as_float h.plot_ratio))
  else if k = "management_fee" then some (FieldVal.num (as_float h.management_fee))
  else if k = "property_right_duration" then some (FieldVal.int (as_int h.property_right_duration))
  else if k = "lease_term" then some (FieldVal.int (as_int h.lease_term))
  else none

/-- The key/label pairs of `semantic_fields` in `_combine_semantic_fields`. -/
def semantic_fields : List (String × String) :=
  [("xqtd", "小区特点"), ("xqmd", "小区卖点"), ("xq", "学区"), ("xqph", "小区偏好"),
   ("zb", "周边环境"), ("fyb", "房源标签"), ("fyhx", "房源户型")]

/-- `_combine_semantic_fields`: build the text parts from the legacy keys
`xqmc`/`qy`/`mj`, the `semantic_fields` keys and `user_query_text`, and join
them with `。`. -/
def combine_semantic_fields (numToStr : ℝ → String) (g : String → Option FieldVal) :
    String :=
  let xqmc_part : List String :=
    match g "xqmc" with
    | some v =>
      if v.truthy then
        match v with
        | FieldVal.strList l => ["小区：" ++ String.intercalate ", " l]
        | _ => ["小区：" ++ v.toStr numToStr]
      else []
    | none => []
  let qy_part : List String :=
    match g "qy" with
    | some v => if v.truthy then ["区域：" ++ v.toStr numToStr] else []
    | none => []
  let mj_part : List String :=
    match g "mj" with
    | some v =>
      if v.truthy then
        ["面积：" ++ (v.toStr numToStr).replace "平方米" "" ++ "平方米"]
      else []
    | none => []
  let sem_parts : List String :=
    semantic_fields.filterMap fun kv =>
      match g kv.1 with
      | some v =>
        if v.truthy ∧ ¬ py_strip_empty (v.toStr numToStr) ∧ v.toStr numToStr ≠ "nan" then
          some (kv.2 ++ "：" ++ v.toStr numToStr)
        else none
      | none => none
  let uq_part : List String :=
    match g "user_query_text" with
    | some v => if v.truthy then ["用户需求：" ++ v.toStr numToStr] else []
    | none => []
  String.intercalate "。" (xqmc_part ++ qy_part ++ mj_part ++ sem_parts ++ uq_part)

/-- `create_semantic_vector`: combine the semantic fields; empty text or an
encoder failure (or an uninitialised model) yields the 1024-dimensional zero
vector. -/
def create_semantic_vector (vz : Vectorizer) (numToStr : ℝ → String)
    (g : String → Option FieldVal) : List ℝ :=
  let semantic_text := combine_semantic_fields numToStr g
  if py_strip_empty semantic_text then zero_vector
  else
    match vz.encode semantic_text with
    | Except.ok v => v
    | Except.error _ => zero_vector

/-- The output of `_preprocess_house_data`: the processed dictionary plus the
attached `semantic_vector`. -/
structure ProcessedHouse where
  dict : String → Option FieldVal
  semantic_vector : List ℝ

/-- `_preprocess_house_data`. -/
def preprocess_house_data (vz : Vectorizer) (numToStr : ℝ → String) (h : RawHouse) :
    ProcessedHouse :=
  let d := preprocess_dict h
  { dict := d, semantic_vector := create_semantic_vector vz numToStr d }

/-! ### Derived predicates used in the claim statements -/

/-- Whether `search_houses` takes the circle post-processing branch for these
parameters: a truthy `location` whose three circle keys are present. -/
def is_circle_params (p : SearchParams) : Bool :=
  match p.location with
  | some loc => loc.truthy && is_circle_search loc
  | none => false

/-- Whether the first result row carries a `similarity_score`
(`results and 'similarity_score' in results[0]`). -/
def head_scored : List OutHouse → Bool
  | [] => false
  | r :: _ => r.similarityScore.isSome

/-! ### Concrete instances used in counterexamples and witnesses -/

/-- A listing one degree of latitude north of the origin. -/
def docA : HouseDoc :=
  { id := "h1", category := 2, name := "万科城市花园", region := "海淀区",
    address := "中关村大街39号", minArea := 80, maxArea := 95, minUnitPrice := 1,
    maxUnitPrice := 2, minTotalPrice := 650, maxTotalPrice := 720, rent := 0,
    longitude := 0, latitude := 1, semanticStr := "三室两厅学区房" }

/-- `docA` as an unscored result row. -/
def outA : OutHouse :=
  row_to_result docA

/-- A circular `location`: center `(0, 0)`, radius 200 km. -/
def circleLoc200 : LocationParam :=
  { centerLongitude := some (some 0), centerLatitude := some (some 0),
    radiusKm := some (some 200), minLongitude := none, maxLongitude := none,
    minLatitude := none, maxLatitude := none, minJd := none, maxJd := none,
    minWd := none, maxWd := none }

/-- A vectorizer whose encoder always succeeds. -/
def vzUnit : Vectorizer :=
  ⟨fun _ => Except.ok [1]⟩

/-- An engine whose every operation succeeds with no hits. -/
def engOk : Engine :=
  { vectorSearch := fun _ _ _ _ => Except.ok [],
    bm25Search := fun _ _ _ => Except.ok [],
    hybridSearch := fun _ _ _ _ _ _ _ _ => Except.ok [],
    query := fun _ _ _ => Except.ok [] }

/-- An engine whose store contains `docA` (every filter query returns it). -/
def engStore : Engine :=
  { engOk with query := fun _ _ _ => Except.ok [docA] }

/-- An engine whose every operation raises. -/
def engFail : Engine :=
  { vectorSearch := fun _ _ _ _ => Except.error "db down",
    bm25Search := fun _ _ _ => Except.error "db down",
    hybridSearch := fun _ _ _ _ _ _ _ _ => Except.error "db down",
    query := fun _ _ _ => Except.error "db down" }

/-- An engine whose fusion (hybrid) primitive raises but whose plain searches
succeed. -/
def engHybridDown : Engine :=
  { engOk with hybridSearch := fun _ _ _ _ _ _ _ _ => Except.error "fusion unavailable" }

/-- The unit range `[1, 2]`. -/
def qOneTwo : RangeQ :=
  ⟨some 1, some 2⟩

/-- Parameters with only `rent_range = {min_rent: 1000, max_rent: 2000}`. -/
def pRent : SearchParams :=
  { emptyParams with rentRange := some ⟨some 1000, some 2000⟩ }

/-- Parameters with a query text and the default retrieval type. -/
def pVec : SearchParams :=
  { emptyParams with userQueryText := some "学区房" }

/-- Parameters with a query text and hybrid retrieval. -/
def pHybrid : SearchParams :=
  { emptyParams with retrievalType := some "hybrid", userQueryText := some "学区房" }

/-- Parameters with a query text and BM25 retrieval. -/
def pBm25 : SearchParams :=
  { emptyParams with retrievalType := some "bm25", userQueryText := some "学区房" }

/-- Parameters with only the 200 km circle location. -/
def pCircle : SearchParams :=
  { emptyParams with location := some circleLoc200 }

/-- Parameters with all four numeric ranges set to `[1, 2]`. -/
def pAllRanges : SearchParams :=
  { emptyParams with
    areaRange := some qOneTwo
    unitPriceRange := some qOneTwo
    totalPriceRange := some qOneTwo
    rentRange := some qOneTwo }

/-! ### Helper lemmas about the pipeline -/

theorem apply_circle_nil (loc : LocationParam) (limit : ℕ) :
    apply_circle_distance_filter loc [] limit = [] := by
  unfold apply_circle_distance_filter
  cases loc.centerLongitude.join <;> cases loc.centerLatitude.join <;>
    cases loc.radiusKm.join <;> simp

theorem sort_stage_nil : sort_stage [] = [] :=
  rfl

theorem order_stage_nil (loc : Option LocationParam) (limit : ℕ) :
    order_stage loc limit [] = [] := by
  unfold order_stage
  cases loc with
  | none => rfl
  | some l =>
    by_cases h : (l.truthy && is_circle_search l) = true
    · simp [h, apply_circle_nil]
    · simp [h, sort_stage_nil]

theorem search_houses_eq (eng : Engine) (vz : Vectorizer) (p : SearchParams)
    (limit offset : ℕ) :
    search_houses eng vz p limit offset =
      order_stage p.location limit (assembled_results eng vz p limit offset) := by
  unfold search_houses search_houses_exc assembled_results
  cases h : assemble_results eng vz (build_filter_expression p)
      (py_lower (pyOrStr p.retrievalType "vector")) (pyOr p.userQueryText p.semanticStr)
      p.confidence p.hybridWeights limit offset with
  | ok r => simp [h]
  | error e => simp [h, order_stage_nil]

theorem pairwise_dist_sorted (l : List OutHouse) :
    List.Pairwise (fun a b => sort_key_distance a ≤ sort_key_distance b)
      (l.mergeSort fun a b => decide (sort_key_distance a ≤ sort_key_distance b)) := by
  have h := @List.sorted_mergeSort OutHouse
    (fun a b => decide (sort_key_distance a ≤ sort_key_distance b))
    (fun a b c hab hbc => by
      simp only [decide_eq_true_eq] at hab hbc ⊢
      exact le_trans hab hbc)
    (fun a b => by
      simp only [Bool.or_eq_true, decide_eq_true_eq]
      exact le_total _ _)
    l
  exact h.imp fun hab => by simpa using hab

theorem pairwise_sim_sorted (l : List OutHouse) :
    List.Pairwise (fun a b => sim_score_key b ≤ sim_score_key a)
      (l.mergeSort fun a b => decide (sim_score_key b ≤ sim_score_key a)) := by
  have h := @List.sorted_mergeSort OutHouse
    (fun a b => decide (sim_score_key b ≤ sim_score_key a))
    (fun a b c hab hbc => by
      simp only [decide_eq_true_eq] at hab hbc ⊢
      exact le_trans hbc hab)
    (fun a b => by
      simp only [Bool.or_eq_true, decide_eq_true_eq]
      exact le_total _ _)
    l
  exact h.imp fun hab => by simpa using hab

theorem length_pySlice (l : List α) (o k : ℕ) :
    (pySlice l o (o + k)).length ≤ k := by
  simp [pySlice]
  omega

theorem pySlice_eq_take_drop (l : List α) (o k : ℕ) :
    pySlice l o (o + k) = (l.drop o).take k := by
  simp [pySlice, List.drop_take]

theorem length_apply_circle (loc : LocationParam) (r : List OutHouse) (limit : ℕ) :
    (apply_circle_distance_filter loc r limit).length ≤ limit := by
  unfold apply_circle_distance_filter
  cases loc.centerLongitude.join <;> cases loc.centerLatitude.join <;>
    cases loc.radiusKm.join <;> simp [List.length_take]

theorem length_sort_stage (r : List OutHouse) :
    (sort_stage r).length = r.length := by
  unfold sort_stage
  cases r with
  | nil => rfl
  | cons a as =>
    by_cases h : a.similarityScore.isSome
    · simp [h, List.length_mergeSort]
    · simp [h]

theorem length_order_stage_le (loc : Option LocationParam) (limit : ℕ)
    (r : List OutHouse) (h : r.length ≤ limit) :
    (order_stage loc limit r).length ≤ limit := by
  unfold order_stage
  cases loc with
  | none => rw [length_sort_stage]; exact h
  | some l =>
    by_cases hc : (l.truthy && is_circle_search l) = true
    · simp only [hc, if_true]
      exact length_apply_circle l r limit
    · simp only [hc]
      simp [length_sort_stage, h]

theorem length_assembled_le (eng : Engine) (vz : Vectorizer) (p : SearchParams)
    (limit offset : ℕ)
    (hq : ∀ f l o r, eng.query f l o = Except.ok r → r.length ≤ l) :
    (assembled_results eng vz p limit offset).length ≤ limit := by
  unfold assembled_results assemble_results
  cases hr : run_retrieval eng vz (build_filter_expression p)
      (py_lower (pyOrStr p.retrievalType "vector")) (pyOr p.userQueryText p.semanticStr)
      p.confidence p.hybridWeights (limit + offset) with
  | error e => exact Nat.zero_le _
  | ok sr =>
    cases sr with
    | some hits => exact length_pySlice (hits.map hit_to_result) offset limit
    | none =>
      cases hf : pyTruthyFilter (build_filter_expression p) with
      | none => exact Nat.zero_le _
      | some f =>
        have hgoal : ∀ q : Except String (List HouseDoc),
            (∀ rows, q = Except.ok rows → rows.length ≤ limit) →
            (match (do
                let rows ← q
                pure (List.map row_to_result rows) : Except String (List OutHouse)) with
              | Except.ok r => r
              | Except.error _ => []).length ≤ limit := by
          intro q hqq
          cases q with
          | error e => exact Nat.zero_le _
          | ok rows =>
            show (rows.map row_to_result).length ≤ limit
            simpa using hqq rows rfl
        exact hgoal (eng.query f limit offset) (fun rows h => hq f limit offset rows h)

theorem mem_apply_circle (loc : LocationParam) (results : List OutHouse) (limit : ℕ)
    (clng clat r : ℝ)
    (h1 : loc.centerLongitude = some (some clng))
    (h2 : loc.centerLatitude = some (some clat))
    (h3 : loc.radiusKm = some (some r)) :
    ∀ x ∈ apply_circle_distance_filter loc results limit,
      calculate_distance_km clat clng x.doc.latitude x.doc.longitude ≤ r ∧
      x.distanceKm =
        some (pyRound2 (calculate_distance_km clat clng x.doc.latitude x.doc.longitude)) := by
  intro x hx
  unfold apply_circle_distance_filter at hx
  rw [h1, h2, h3] at hx
  simp only [Option.join] at hx
  have hx2 := List.take_subset _ _ hx
  rw [List.mem_mergeSort] at hx2
  rw [List.mem_filterMap] at hx2
  obtain ⟨house, _, hfx⟩ := hx2
  by_cases hd : calculate_distance_km clat clng house.doc.latitude house.doc.longitude ≤ r
  · rw [if_pos hd] at hfx
    obtain rfl := Option.some_injective _ hfx
    exact ⟨hd, rfl⟩
  · rw [if_neg hd] at hfx
    exact absurd hfx (by simp)

theorem sorted_apply_circle (loc : LocationParam) (results : List OutHouse) (limit : ℕ)
    (clng clat r : ℝ)
    (h1 : loc.centerLongitude = some (some clng))
    (h2 : loc.centerLatitude = some (some clat))
    (h3 : loc.radiusKm = some (some r)) :
    List.Pairwise (fun a b => sort_key_distance a ≤ sort_key_distance b)
      (apply_circle_distance_filter loc results limit) := by
  unfold apply_circle_distance_filter
  rw [h1, h2, h3]
  simp only [Option.join]
  exact (pairwise_dist_sorted _).sublist (List.take_sublist _ _)

/-! ### Helper lemmas about the haversine distance -/

theorem atan2_ge (t y x : ℝ) (ht0 : 0 ≤ t) (ht : t ≤ Real.pi / 2)
    (hy : Real.sin t ≤ y) (hx : x ≤ Real.cos t) : t ≤ atan2 y x := by
  have hpi := Real.pi_pos
  have hsin : 0 ≤ Real.sin t :=
    Real.sin_nonneg_of_nonneg_of_le_pi ht0 (by linarith)
  have hy0 : 0 ≤ y := le_trans hsin hy
  unfold atan2
  by_cases hx0 : 0 < x
  · rw [if_pos hx0]
    have hcos : 0 < Real.cos t := lt_of_lt_of_le hx0 hx
    have htlt : t < Real.pi / 2 := by
      rcases lt_or_eq_of_le ht with h | h
      · exact h
      · exfalso
        rw [h, Real.cos_pi_div_two] at hcos
        exact lt_irrefl 0 hcos
    have htan : Real.tan t ≤ y / x := by
      rw [Real.tan_eq_sin_div_cos]
      exact div_le_div₀ hy0 hy hx0 hx
    calc t = Real.arctan (Real.tan t) := (Real.arctan_tan (by linarith) htlt).symm
      _ ≤ Real.arctan (y / x) := Real.arctan_strictMono.monotone htan
  · rw [if_neg hx0]
    by_cases hxneg : x < 0
    · rw [if_pos hxneg, if_pos hy0]
      have := Real.neg_pi_div_two_lt_arctan (y / x)
      linarith
    · rw [if_neg hxneg]
      by_cases hy1 : 0 < y
      · rw [if_pos hy1]
        exact ht
      · rw [if_neg hy1]
        have hy2 : y = 0 := le_antisymm (not_lt.mp hy1) hy0
        have hsin0 : Real.sin t = 0 := by
          rw [hy2] at hy
          exact le_antisymm hy hsin
        have hzero : t = 0 := by
          by_contra hne
          have hpos : 0 < t := lt_of_le_of_ne ht0 (Ne.symm hne)
          have : 0 < Real.sin t := Real.sin_pos_of_pos_of_lt_pi hpos (by linarith)
          linarith
        rw [if_neg (by rw [hy2]; exact lt_irrefl 0)]
        exact le_of_eq hzero

theorem atan2_core_ge (l1r l2r s : ℝ) (h1a : -(Real.pi / 2) ≤ l1r) (h1b : l1r ≤ Real.pi / 2)
    (h2a : -(Real.pi / 2) ≤ l2r) (h2b : l2r ≤ Real.pi / 2) (hle : l1r ≤ l2r) (hs : 0 ≤ s) :
    l2r - l1r ≤ 2 * atan2
      (Real.sqrt (Real.sin ((l2r - l1r) / 2) ^ 2 + Real.cos l1r * Real.cos l2r * s))
      (Real.sqrt (1 - (Real.sin ((l2r - l1r) / 2) ^ 2 + Real.cos l1r * Real.cos l2r * s))) := by
  have hpi := Real.pi_pos
  set t := (l2r - l1r) / 2 with htdef
  set a := Real.sin t ^ 2 + Real.cos l1r * Real.cos l2r * s with hadef
  have ht0 : 0 ≤ t := by
    rw [htdef]
    linarith
  have htmax : t ≤ Real.pi / 2 := by
    rw [htdef]
    linarith
  have hsin : 0 ≤ Real.sin t :=
    Real.sin_nonneg_of_nonneg_of_le_pi ht0 (by linarith)
  have hcos1 : 0 ≤ Real.cos l1r := Real.cos_nonneg_of_mem_Icc ⟨h1a, h1b⟩
  have hcos2 : 0 ≤ Real.cos l2r := Real.cos_nonneg_of_mem_Icc ⟨h2a, h2b⟩
  have ha : Real.sin t ^ 2 ≤ a := by
    rw [hadef]
    nlinarith [mul_nonneg (mul_nonneg hcos1 hcos2) hs]
  have hy : Real.sin t ≤ Real.sqrt a := by
    have := Real.sqrt_le_sqrt ha
    rwa [Real.sqrt_sq hsin] at this
  have hcost : 0 ≤ Real.cos t := Real.cos_nonneg_of_mem_Icc ⟨by linarith, htmax⟩
  have hx : Real.sqrt (1 - a) ≤ Real.cos t := by
    have h1 : 1 - a ≤ Real.cos t ^ 2 := by
      have := Real.cos_sq' t
      linarith
    have := Real.sqrt_le_sqrt h1
    rwa [Real.sqrt_sq hcost] at this
  have := atan2_ge t (Real.sqrt a) (Real.sqrt (1 - a)) ht0 htmax hy hx
  linarith

theorem dist_ge_lat (lat1 lng1 lat2 lng2 : ℝ)
    (h1a : -90 ≤ lat1) (h1b : lat1 ≤ 90) (h2a : -90 ≤ lat2) (h2b : lat2 ≤ 90)
    (hle : lat1 ≤ lat2) :
    6371 * ((lat2 - lat1) * Real.pi / 180) ≤ calculate_distance_km lat1 lng1 lat2 lng2 := by
  have hpi := Real.pi_pos
  have hb1a : -(Real.pi / 2) ≤ radians lat1 := by
    unfold radians
    nlinarith
  have hb1b : radians lat1 ≤ Real.pi / 2 := by
    unfold radians
    nlinarith
  have hb2a : -(Real.pi / 2) ≤ radians lat2 := by
    unfold radians
    nlinarith
  have hb2b : radians lat2 ≤ Real.pi / 2 := by
    unfold radians
    nlinarith
  have hler : radians lat1 ≤ radians lat2 := by
    unfold radians
    nlinarith
  have hcore := atan2_core_ge (radians lat1) (radians lat2)
    (Real.sin ((radians lng2 - radians lng1) / 2) ^ 2) hb1a hb1b hb2a hb2b hler
    (sq_nonneg _)
  have hdd : radians lat2 - radians lat1 = (lat2 - lat1) * Real.pi / 180 := by
    unfold radians
    ring
  simp only [calculate_distance_km]
  rw [← hdd]
  have h6371 : (6371.0 : ℝ) = 6371 := by norm_num
  rw [h6371]
  have := mul_le_mul_of_nonneg_left hcore (by norm_num : (0:ℝ) ≤ 6371)
  linarith

theorem calculate_distance_symm (lat1 lng1 lat2 lng2 : ℝ) :
    calculate_distance_km lat1 lng1 lat2 lng2 = calculate_distance_km lat2 lng2 lat1 lng1 := by
  simp only [calculate_distance_km]
  have h1 : ∀ u v : ℝ, Real.sin ((u - v) / 2) ^ 2 = Real.sin ((v - u) / 2) ^ 2 := by
    intro u v
    rw [show (u - v) / 2 = -((v - u) / 2) by ring, Real.sin_neg]
    ring
  rw [h1 (radians lat2) (radians lat1), h1 (radians lng2) (radians lng1),
    mul_comm (Real.cos (radians lat1)) (Real.cos (radians lat2))]

theorem calculate_distance_self (a b : ℝ) : calculate_distance_km a b a b = 0 := by
  have h0 : atan2 0 1 = 0 := by
    unfold atan2
    rw [if_pos (by norm_num : (0:ℝ) < 1)]
    norm_num [Real.arctan_zero]
  simp only [calculate_distance_km, sub_self]
  norm_num [Real.sin_zero, Real.sqrt_zero, Real.sqrt_one, h0]

theorem calculate_distance_equator :
    calculate_distance_km 0 0 1 0 = 6371 * (Real.pi / 180) := by
  have hpi := Real.pi_pos
  have ht0 : (0:ℝ) < Real.pi / 360 := by positivity
  have ht1 : Real.pi / 360 < Real.pi / 2 := by nlinarith
  simp only [calculate_distance_km, radians]
  have e1 : (1:ℝ) * Real.pi / 180 - 0 * Real.pi / 180 = Real.pi / 180 := by ring
  have e2 : (0:ℝ) * Real.pi / 180 - 0 * Real.pi / 180 = 0 := by ring
  rw [e1, e2]
  have e3 : Real.sin ((0:ℝ) / 2) ^ 2 = 0 := by
    norm_num [Real.sin_zero]
  rw [e3, mul_zero, add_zero]
  rw [show Real.pi / 180 / 2 = Real.pi / 360 by ring]
  have hsin : 0 ≤ Real.sin (Real.pi / 360) :=
    Real.sin_nonneg_of_nonneg_of_le_pi (le_of_lt ht0) (by linarith)
  have hcospos : 0 < Real.cos (Real.pi / 360) :=
    Real.cos_pos_of_mem_Ioo ⟨by linarith, ht1⟩
  rw [Real.sqrt_sq hsin]
  rw [show 1 - Real.sin (Real.pi / 360) ^ 2 = Real.cos (Real.pi / 360) ^ 2 by
    have := Real.cos_sq' (Real.pi / 360)
    linarith]
  rw [Real.sqrt_sq (le_of_lt hcospos)]
  unfold atan2
  rw [if_pos hcospos, ← Real.tan_eq_sin_div_cos,
    Real.arctan_tan (by linarith) ht1]
  norm_num
  ring

theorem equator_distance_lt : calculate_distance_km 0 0 1 0 < 111.195 := by
  rw [calculate_distance_equator]
  linarith [Real.pi_lt_d6]

theorem equator_distance_gt : (111.19 : ℝ) < calculate_distance_km 0 0 1 0 := by
  rw [calculate_distance_equator]
  linarith [Real.pi_gt_d6]

theorem roundHalfEven_equator :
    roundHalfEven (6371 * (Real.pi / 180) * 100) = 11119 := by
  have hlow : (11119.4 : ℝ) < 6371 * (Real.pi / 180) * 100 := by
    linarith [Real.pi_gt_d6]
  have hhigh : 6371 * (Real.pi / 180) * 100 < 11119.5 := by
    linarith [Real.pi_lt_d6]
  have hfloor : ⌊6371 * (Real.pi / 180) * 100⌋ = 11119 := by
    rw [Int.floor_eq_iff]
    push_cast
    constructor <;> linarith
  unfold roundHalfEven
  rw [if_neg, round_eq, Int.floor_eq_iff]
  · push_cast
    constructor <;> linarith
  · rw [hfloor]
    intro hcontra
    push_cast at hcontra
    linarith

theorem pyRound2_equator_ne :
    pyRound2 (calculate_distance_km 0 0 1 0) ≠ calculate_distance_km 0 0 1 0 := by
  rw [calculate_distance_equator]
  unfold pyRound2
  rw [roundHalfEven_equator]
  intro h
  push_cast at h
  linarith [Real.pi_gt_d6]

theorem lat_band_of_dist_le (clat clng plat plng r : ℝ)
    (h1 : -90 ≤ clat) (h2 : clat ≤ 90) (h3 : -90 ≤ plat) (h4 : plat ≤ 90)
    (hd : calculate_distance_km clat clng plat plng ≤ r) :
    |plat - clat| ≤ r * 180 / (Real.pi * 6371) := by
  have hpi := Real.pi_pos
  have halg : ∀ d : ℝ, 0 ≤ d → 6371 * (d * Real.pi / 180) ≤ r →
      d ≤ r * 180 / (Real.pi * 6371) := by
    intro d hd0 hineq
    rw [le_div_iff₀ (by positivity)]
    nlinarith
  rcases le_total clat plat with hcase | hcase
  · have hlow := dist_ge_lat clat clng plat plng h1 h2 h3 h4 hcase
    have hup : plat - clat ≤ r * 180 / (Real.pi * 6371) :=
      halg _ (by linarith) (by linarith)
    rw [abs_le]
    exact ⟨by linarith, hup⟩
  · have hsymm := calculate_distance_symm clat clng plat plng
    have hlow := dist_ge_lat plat plng clat clng h3 h4 h1 h2 hcase
    rw [← hsymm] at hlow
    have hup : clat - plat ≤ r * 180 / (Real.pi * 6371) :=
      halg _ (by linarith) (by linarith)
    rw [abs_le]
    exact ⟨by linarith, by linarith⟩

theorem pairwise_top (l : List OutHouse) (h : ∀ x ∈ l, x.distanceKm = none) :
    List.Pairwise (fun a b => sort_key_distance a ≤ sort_key_distance b) l := by
  induction l with
  | nil => exact List.Pairwise.nil
  | cons a as ih =>
    refine List.Pairwise.cons ?_ (ih fun x hx => h x (List.mem_cons_of_mem a hx))
    intro b hb
    have ha := h a (List.mem_cons_self a as)
    have hbn := h b (List.mem_cons_of_mem a hb)
    unfold sort_key_distance
    rw [ha, hbn]

theorem assembled_distanceKm_none (eng : Engine) (vz : Vectorizer) (p : SearchParams)
    (limit offset : ℕ) :
    ∀ x ∈ assembled_results eng vz p limit offset, x.distanceKm = none := by
  unfold assembled_results assemble_results
  cases hr : run_retrieval eng vz (build_filter_expression p)
      (py_lower (pyOrStr p.retrievalType "vector")) (pyOr p.userQueryText p.semanticStr)
      p.confidence p.hybridWeights (limit + offset) with
  | error e => intro x hx; exact absurd hx (List.not_mem_nil x)
  | ok sr =>
    cases sr with
    | some hits =>
      intro x hx
      have hx2 : x ∈ hits.map hit_to_result := by
        have h1 := List.drop_subset offset ((hits.map hit_to_result).take (offset + limit))
        have h2 := List.take_subset (offset + limit) (hits.map hit_to_result)
        exact h2 (h1 hx)
      obtain ⟨hit, _, rfl⟩ := List.mem_map.mp hx2
      rfl
    | none =>
      cases hf : pyTruthyFilter (build_filter_expression p) with
      | none => intro x hx; exact absurd hx (List.not_mem_nil x)
      | some f =>
        have hgoal : ∀ q : Except String (List HouseDoc),
            ∀ x ∈ (match (do
                let rows ← q
                pure (List.map row_to_result rows) : Except String (List OutHouse)) with
              | Except.ok r => r
              | Except.error _ => []), x.distanceKm = none := by
          intro q x hx
          cases q with
          | error e => exact absurd hx (List.not_mem_nil x)
          | ok rows =>
            have hx2 : x ∈ rows.map row_to_result := hx
            obtain ⟨row, _, rfl⟩ := List.mem_map.mp hx2
            rfl
        exact hgoal (eng.query f limit offset)

theorem sort_stage_unscored (l : List OutHouse) (h : head_scored l = false) :
    sort_stage l = l := by
  cases l with
  | nil => rfl
  | cons a as =>
    have h2 : a.similarityScore.isSome = false := h
    simp only [sort_stage, h2]
    simp

theorem sort_stage_map_row (rows : List HouseDoc) :
    sort_stage (rows.map row_to_result) = rows.map row_to_result := by
  apply sort_stage_unscored
  cases rows with
  | nil => rfl
  | cons a as => rfl

theorem combine_preprocess_empty (numToStr : ℝ → String) (h : RawHouse) :
    combine_semantic_fields numToStr (preprocess_dict h) = "" := by
  have e1 : preprocess_dict h "xqmc" = none := rfl
  have e2 : preprocess_dict h "qy" = none := rfl
  have e3 : preprocess_dict h "mj" = none := rfl
  have e4 : preprocess_dict h "xqtd" = none := rfl
  have e5 : preprocess_dict h "xqmd" = none := rfl
  have e6 : preprocess_dict h "xq" = none := rfl
  have e7 : preprocess_dict h "xqph" = none := rfl
  have e8 : preprocess_dict h "zb" = none := rfl
  have e9 : preprocess_dict h "fyb" = none := rfl
  have e10 : preprocess_dict h "fyhx" = none := rfl
  have e11 : preprocess_dict h "user_query_text" = none := rfl
  simp only [combine_semantic_fields, semantic_fields, e1, e2, e3, e4, e5, e6, e7,
    e8, e9, e10, e11, List.filterMap]
  rfl

/-! ### The claims -/

/-- C1 (counterexample): the claim lists `rent` among the min/max-pair
attributes compiled to the overlap test `listing.max_attr >= query.min AND
listing.min_attr <= query.max`.  For the request whose only filter is
`rent_range = {min_rent: 1000, max_rent: 2000}`, the compiler emits a direct
interval test on the single `rent` attribute, and no pair of two *distinct*
attributes can present the compiled output as an overlap test. -/
theorem C1_rent_not_overlap_counterexample :
    build_filter_expression pRent =
      some [Cond.ge NumField.rent 1000, Cond.le NumField.rent 2000] ∧
    ¬ ∃ fmax fmin : NumField, fmax ≠ fmin ∧
        build_filter_expression pRent =
          some (overlap_conds fmax fmin ⟨some 1000, some 2000⟩) := by
  constructor
  · rfl
  · rintro ⟨fmax, fmin, hne, heq⟩
    have h0 : build_filter_expression pRent =
        some [Cond.ge NumField.rent 1000, Cond.le NumField.rent 2000] := rfl
    rw [h0] at heq
    simp only [overlap_conds, List.singleton_append, Option.some_inj,
      List.cons.injEq, Cond.ge.injEq, Cond.le.injEq, List.cons_append,
      List.nil_append] at heq
    exact hne (heq.1.1.symm.trans heq.2.1.1)

/-- C1 (amended): for the attributes stored as min/max pairs — area, unit
price, total price — a range filter compiles to the overlap test
`max_attr >= query.min AND min_attr <= query.max`, each half omitted
independently when its bound is absent, and the emitted conditions appear
contiguously in the compiled conjunction.  `rent` is stored as a single
attribute and a rent range compiles to the direct interval test
`rent >= min_rent AND rent <= max_rent` on that one attribute. -/
theorem C1_range_filters_amended (p : SearchParams) (q : RangeQ) :
    (p.areaRange = some q →
      area_conds p = overlap_conds NumField.maxArea NumField.minArea q ∧
      (overlap_conds NumField.maxArea NumField.minArea q) <:+: build_conditions p) ∧
    (p.unitPriceRange = some q →
      unit_price_conds p = overlap_conds NumField.maxUnitPrice NumField.minUnitPrice q ∧
      (overlap_conds NumField.maxUnitPrice NumField.minUnitPrice q) <:+: build_conditions p) ∧
    (p.totalPriceRange = some q →
      total_price_conds p = overlap_conds NumField.maxTotalPrice NumField.minTotalPrice q ∧
      (overlap_conds NumField.maxTotalPrice NumField.minTotalPrice q) <:+: build_conditions p) ∧
    (p.rentRange = some q →
      rent_conds p = bound_conds NumField.rent q ∧
      (bound_conds NumField.rent q) <:+: build_conditions p) := by
  refine ⟨fun h => ⟨?_, ?_⟩, fun h => ⟨?_, ?_⟩, fun h => ⟨?_, ?_⟩, fun h => ⟨?_, ?_⟩⟩
  · unfold area_conds
    rw [h]
  · refine ⟨cat_conds p ++ name_conds p ++ region_conds p ++ simple_conds p ++ tag_conds p,
      unit_price_conds p ++ total_price_conds p ++ rent_conds p ++
        property_right_duration_conds p ++ greening_rate_conds p ++ plot_ratio_conds p ++
        management_fee_conds p ++ location_conds p, ?_⟩
    have harea : area_conds p = overlap_conds NumField.maxArea NumField.minArea q := by
      unfold area_conds
      rw [h]
    rw [← harea]
    simp [build_conditions, List.append_assoc]
  · unfold unit_price_conds
    rw [h]
  · refine ⟨cat_conds p ++ name_conds p ++ region_conds p ++ simple_conds p ++ tag_conds p ++
      area_conds p,
      total_price_conds p ++ rent_conds p ++ property_right_duration_conds p ++
        greening_rate_conds p ++ plot_ratio_conds p ++ management_fee_conds p ++
        location_conds p, ?_⟩
    have hup : unit_price_conds p = overlap_conds NumField.maxUnitPrice NumField.minUnitPrice q := by
      unfold unit_price_conds
      rw [h]
    rw [← hup]
    simp [build_conditions, List.append_assoc]
  · unfold total_price_conds
    rw [h]
  · refine ⟨cat_conds p ++ name_conds p ++ region_conds p ++ simple_conds p ++ tag_conds p ++
      area_conds p ++ unit_price_conds p,
      rent_conds p ++ property_right_duration_conds p ++ greening_rate_conds p ++
        plot_ratio_conds p ++ management_fee_conds p ++ location_conds p, ?_⟩
    have htp : total_price_conds p = overlap_conds NumField.maxTotalPrice NumField.minTotalPrice q := by
      unfold total_price_conds
      rw [h]
    rw [← htp]
    simp [build_conditions, List.append_assoc]
  · unfold rent_conds
    rw [h]
  · refine ⟨cat_conds p ++ name_conds p ++ region_conds p ++ simple_conds p ++ tag_conds p ++
      area_conds p ++ unit_price_conds p ++ total_price_conds p,
      property_right_duration_conds p ++ greening_rate_conds p ++ plot_ratio_conds p ++
        management_fee_conds p ++ location_conds p, ?_⟩
    have hrc : rent_conds p = bound_conds NumField.rent q := by
      unfold rent_conds
      rw [h]
    rw [← hrc]
    simp [build_conditions, List.append_assoc]

/-- C1 (witness): the amended statement applied to the request whose four
ranges are all `[1, 2]`. -/
theorem C1_range_filters_amended_witness :
    (area_conds pAllRanges = overlap_conds NumField.maxArea NumField.minArea qOneTwo ∧
      (overlap_conds NumField.maxArea NumField.minArea qOneTwo) <:+:
        build_conditions pAllRanges) ∧
    (unit_price_conds pAllRanges =
        overlap_conds NumField.maxUnitPrice NumField.minUnitPrice qOneTwo ∧
      (overlap_conds NumField.maxUnitPrice NumField.minUnitPrice qOneTwo) <:+:
        build_conditions pAllRanges) ∧
    (total_price_conds pAllRanges =
        overlap_conds NumField.maxTotalPrice NumField.minTotalPrice qOneTwo ∧
      (overlap_conds NumField.maxTotalPrice NumField.minTotalPrice qOneTwo) <:+:
        build_conditions pAllRanges) ∧
    (rent_conds pAllRanges = bound_conds NumField.rent qOneTwo ∧
      (bound_conds NumField.rent qOneTwo) <:+: build_conditions pAllRanges) :=
  ⟨(C1_range_filters_amended pAllRanges qOneTwo).1 rfl,
   (C1_range_filters_amended pAllRanges qOneTwo).2.1 rfl,
   (C1_range_filters_amended pAllRanges qOneTwo).2.2.1 rfl,
   (C1_range_filters_amended pAllRanges qOneTwo).2.2.2 rfl⟩

/-- C2 (code bug): the claim — and the service's own documentation — say the
stored `semantic_vector` is the embedding of the listing's `semantic_str`.
In the code, `create_semantic_vector` embeds `_combine_semantic_fields` of the
processed record, which reads only the legacy keys `xqmc`/`qy`/`mj`/`xqtd`/…
that `_preprocess_house_data` never sets.  The combined text is therefore
empty for every accepted listing and the stored vector is always the
1024-dimensional zero vector, regardless of `semantic_str` and of the
embedding model. -/
theorem C2_semantic_vector_zero_eval (vz : Vectorizer) (numToStr : ℝ → String)
    (h : RawHouse) :
    combine_semantic_fields numToStr (preprocess_dict h) = "" ∧
    (preprocess_house_data vz numToStr h).semantic_vector = List.replicate 1024 0 := by
  refine ⟨combine_preprocess_empty numToStr h, ?_⟩
  show create_semantic_vector vz numToStr (preprocess_dict h) = List.replicate 1024 0
  unfold create_semantic_vector
  rw [combine_preprocess_empty]
  rfl

/-- C3 (counterexample): for the circle centered at `(0, 0)` with radius
111.2 km (a positive radius at a valid latitude), the point at latitude 1°,
longitude 0° is within haversine distance 111.2 km of the center (its
distance is 6371·π/180 ≈ 111.195 km) but lies outside the computed bounding
box, whose latitude half-width is 111.2/111.32 < 1 degrees.  The box is
therefore not a superset of the circle. -/
theorem C3_bounding_box_counterexample :
    calculate_distance_km 0 0 1 0 ≤ 111.2 ∧
    (0 : ℝ) < 111.2 ∧
    ¬ (circle_box 0 0 111.2).contains 1 0 := by
  refine ⟨by linarith [equator_distance_lt], by norm_num, ?_⟩
  intro hcon
  obtain ⟨_, h2, _, _⟩ := hcon
  have h2event : (1 : ℝ) ≤ 0 + 111.2 / 111.32 := h2
  norm_num at h2event

/-- C3 (amended): the bounding box is not a superset of the circle; what does
hold is the latitude band with the exact per-degree constant: every point
within haversine distance `r` of a center, both at valid latitudes, has
`|lat - center_lat| ≤ r·180/(π·6371)` degrees.  The box's latitude half-width
`r/111.32` is strictly within this band (for `r ≥ 0`), which is why in-circle
points can escape the box. -/
theorem C3_latitude_band_amended (clng clat r plat plng : ℝ)
    (h1 : -90 ≤ clat) (h2 : clat ≤ 90) (h3 : -90 ≤ plat) (h4 : plat ≤ 90)
    (hd : calculate_distance_km clat clng plat plng ≤ r) :
    |plat - clat| ≤ r * 180 / (Real.pi * 6371) ∧
    (0 ≤ r → (circle_box clng clat r).maxLat - clat ≤ r * 180 / (Real.pi * 6371)) := by
  refine ⟨lat_band_of_dist_le clat clng plat plng r h1 h2 h3 h4 hd, ?_⟩
  intro hr
  have hpi := Real.pi_pos
  have hbox : (circle_box clng clat r).maxLat - clat = r / 111.32 := by
    unfold circle_box
    ring
  rw [hbox, div_le_div_iff₀ (by norm_num) (by positivity)]
  nlinarith [Real.pi_lt_d6]

/-- C3 (witness): the amended statement at the circle centered at `(0, 0)`
with radius 1 km and the center point itself, whose haversine distance is 0. -/
theorem C3_latitude_band_amended_witness :
    |(0 : ℝ) - 0| ≤ 1 * 180 / (Real.pi * 6371) ∧
    (0 ≤ (1 : ℝ) → (circle_box 0 0 1).maxLat - 0 ≤ 1 * 180 / (Real.pi * 6371)) :=
  C3_latitude_band_amended 0 0 1 0 0 (by norm_num) (by norm_num) (by norm_num)
    (by norm_num) (by rw [calculate_distance_self]; norm_num)

/-- C4: in hybrid mode with a query text, when every fusion (hybrid search)
call raises and the plain vector search succeeds, `search_houses` neither
propagates the failure (the body returns `ok`) nor changes its answer: the
result equals that of the same request run in pure vector mode, which issues
the vector search with the same query vector, compiled filter and
`limit + offset`. -/
theorem C4_hybrid_fallback (eng : Engine) (vz : Vectorizer) (p : SearchParams)
    (limit offset : ℕ) (qt emsg : String)
    (hrt : py_lower (pyOrStr p.retrievalType "vector") = "hybrid")
    (hqt : pyOr p.userQueryText p.semanticStr = some qt)
    (hfail : ∀ qv t c f l dw sw nrm,
      eng.hybridSearch qv t c f l dw sw nrm = Except.error emsg)
    (hvec : ∀ qv f l c, ∃ hits, eng.vectorSearch qv f l c = Except.ok hits) :
    (∃ res, search_houses_exc eng vz p limit offset = Except.ok res) ∧
    search_houses eng vz p limit offset =
      search_houses eng vz { p with retrievalType := some "vector" } limit offset := by
  have hrun : run_retrieval eng vz (build_filter_expression p) "hybrid" (some qt)
      p.confidence p.hybridWeights (limit + offset) =
      run_retrieval eng vz (build_filter_expression p) "vector" (some qt)
      p.confidence p.hybridWeights (limit + offset) := by
    show (match eng.hybridSearch (create_query_vector vz qt) qt
        (build_milvus_search_params p.confidence)
        ((build_filter_expression p).getD []) (limit + offset)
        ((p.hybridWeights.getD default).vector.getD 0.5)
        ((p.hybridWeights.getD default).bm25.getD 0.5)
        ((p.hybridWeights.getD default).normScore.getD true) with
      | Except.ok hits => (pure (some hits) : Except String (Option (List Hit)))
      | Except.error _ =>
          Except.bind (eng.vectorSearch (create_query_vector vz qt)
            (pyTruthyFilter (build_filter_expression p)) (limit + offset)
            (build_milvus_search_params p.confidence))
            (fun hits => pure (some hits))) =
      Except.bind (eng.vectorSearch (create_query_vector vz qt)
        (pyTruthyFilter (build_filter_expression p)) (limit + offset)
        (build_milvus_search_params p.confidence))
        (fun hits => pure (some hits))
    rw [hfail]
  have hassemble : assemble_results eng vz (build_filter_expression p) "hybrid"
      (some qt) p.confidence p.hybridWeights limit offset =
      assemble_results eng vz (build_filter_expression p) "vector"
      (some qt) p.confidence p.hybridWeights limit offset := by
    simp only [assemble_results, hrun]
  have hexc : search_houses_exc eng vz p limit offset =
      Except.map (order_stage p.location limit)
        (assemble_results eng vz (build_filter_expression p)
          (py_lower (pyOrStr p.retrievalType "vector"))
          (pyOr p.userQueryText p.semanticStr) p.confidence p.hybridWeights limit offset) := by
    show Except.bind (assemble_results eng vz (build_filter_expression p)
        (py_lower (pyOrStr p.retrievalType "vector"))
        (pyOr p.userQueryText p.semanticStr) p.confidence p.hybridWeights limit offset)
        (fun results => pure (order_stage p.location limit results)) = _
    cases assemble_results eng vz (build_filter_expression p)
        (py_lower (pyOrStr p.retrievalType "vector"))
        (pyOr p.userQueryText p.semanticStr) p.confidence p.hybridWeights limit offset with
    | ok r => rfl
    | error e => rfl
  constructor
  · obtain ⟨hits, hh⟩ := hvec (create_query_vector vz qt)
      (pyTruthyFilter (build_filter_expression p)) (limit + offset)
      (build_milvus_search_params p.confidence)
    have hvrun : run_retrieval eng vz (build_filter_expression p) "vector" (some qt)
        p.confidence p.hybridWeights (limit + offset) = Except.ok (some hits) := by
      show Except.bind (eng.vectorSearch (create_query_vector vz qt)
          (pyTruthyFilter (build_filter_expression p)) (limit + offset)
          (build_milvus_search_params p.confidence))
          (fun h2 => pure (some h2)) = Except.ok (some hits)
      rw [hh]
      rfl
    have hvassemble : assemble_results eng vz (build_filter_expression p) "vector"
        (some qt) p.confidence p.hybridWeights limit offset =
        Except.ok (pySlice (hits.map hit_to_result) offset (offset + limit)) := by
      unfold assemble_results
      rw [hvrun]
      rfl
    rw [hexc, hrt, hqt, hassemble, hvassemble]
    exact ⟨_, rfl⟩
  · have hL : search_houses eng vz p limit offset =
        match search_houses_exc eng vz p limit offset with
        | Except.ok r => r
        | Except.error _ => [] := rfl
    have hR : search_houses eng vz { p with retrievalType := some "vector" } limit offset =
        match Except.map (order_stage p.location limit)
          (assemble_results eng vz (build_filter_expression p) "vector"
            (pyOr p.userQueryText p.semanticStr) p.confidence p.hybridWeights limit offset) with
        | Except.ok r => r
        | Except.error _ => [] := by
      have hexc2 : search_houses_exc eng vz { p with retrievalType := some "vector" }
          limit offset =
          Except.map (order_stage p.location limit)
            (assemble_results eng vz (build_filter_expression p) "vector"
              (pyOr p.userQueryText p.semanticStr) p.confidence p.hybridWeights
              limit offset) := by
        show Except.map (order_stage p.location limit)
            (assemble_results eng vz (build_filter_expression
              { p with retrievalType := some "vector" }) "vector"
              (pyOr p.userQueryText p.semanticStr) p.confidence p.hybridWeights
              limit offset) = _
        rfl
      unfold search_houses
      rw [hexc2]
    rw [hL, hR, hexc, hrt, hqt, hassemble]

/-- C4 (witness): the fallback at the engine whose fusion primitive is down,
for the hybrid request with query text. -/
theorem C4_hybrid_fallback_witness :
    (∃ res, search_houses_exc engHybridDown vzUnit pHybrid 10 0 = Except.ok res) ∧
    search_houses engHybridDown vzUnit pHybrid 10 0 =
      search_houses engHybridDown vzUnit { pHybrid with retrievalType := some "vector" } 10 0 :=
  C4_hybrid_fallback engHybridDown vzUnit pHybrid 10 0 "学区房" "fusion unavailable"
    rfl rfl (fun _ _ _ _ _ _ _ _ => rfl) (fun _ _ _ _ => ⟨[], rfl⟩)

/-- C5 (counterexample): the claim says each surviving candidate carries a
`distance_km` equal to its computed haversine distance.  For the circle
centered at `(0, 0)` with radius 200 km and the single candidate at latitude
1°, the post-processor keeps the candidate but attaches the distance rounded
to two decimals (111.19), which differs from the computed distance
6371·π/180 ≈ 111.1949 km. -/
theorem C5_distance_rounding_counterexample :
    apply_circle_distance_filter circleLoc200 [outA] 10 =
      [{ outA with distanceKm := some (pyRound2 (calculate_distance_km 0 0 1 0)) }] ∧
    pyRound2 (calculate_distance_km 0 0 1 0) ≠ calculate_distance_km 0 0 1 0 := by
  refine ⟨?_, pyRound2_equator_ne⟩
  have hd : calculate_distance_km 0 0 outA.doc.latitude outA.doc.longitude ≤ 200 := by
    show calculate_distance_km 0 0 1 0 ≤ 200
    linarith [equator_distance_lt]
  show (([outA].filterMap fun house =>
      if calculate_distance_km 0 0 house.doc.latitude house.doc.longitude ≤ 200 then
        some { house with distanceKm := some (pyRound2 (calculate_distance_km 0 0 house.doc.latitude house.doc.longitude)) }
      else none).mergeSort fun a b =>
        decide (sort_key_distance a ≤ sort_key_distance b)).take 10 = _
  rw [List.filterMap_cons, List.filterMap_nil, if_pos hd]
  rw [List.mergeSort_singleton]
  rfl

/-- C5 (amended): for every search over a circular region with all three
circle values present, every returned candidate is within haversine distance
`radius_km` of the center and carries `distance_km` equal to its computed
distance *rounded to two decimal places*; the result list is sorted ascending
by the attached `distance_km` and truncated to `limit`.  Raw candidates
farther than `radius_km` are discarded (every survivor satisfies the distance
bound). -/
theorem C5_circle_postfilter_amended (eng : Engine) (vz : Vectorizer)
    (p : SearchParams) (limit offset : ℕ) (loc : LocationParam) (clng clat r : ℝ)
    (hloc : p.location = some loc)
    (h1 : loc.centerLongitude = some (some clng))
    (h2 : loc.centerLatitude = some (some clat))
    (h3 : loc.radiusKm = some (some r)) :
    (∀ x ∈ search_houses eng vz p limit offset,
      calculate_distance_km clat clng x.doc.latitude x.doc.longitude ≤ r ∧
      x.distanceKm =
        some (pyRound2 (calculate_distance_km clat clng x.doc.latitude x.doc.longitude))) ∧
    List.Pairwise (fun a b => sort_key_distance a ≤ sort_key_distance b)
      (search_houses eng vz p limit offset) ∧
    (search_houses eng vz p limit offset).length ≤ limit := by
  have ht : loc.truthy = true := by
    unfold LocationParam.truthy
    rw [h1]
    simp
  have hc : is_circle_search loc = true := by
    unfold is_circle_search
    rw [h1, h2, h3]
    rfl
  have hs : search_houses eng vz p limit offset =
      apply_circle_distance_filter loc (assembled_results eng vz p limit offset) limit := by
    rw [search_houses_eq, hloc]
    show (if (loc.truthy && is_circle_search loc) = true then
        apply_circle_distance_filter loc (assembled_results eng vz p limit offset) limit
      else sort_stage (assembled_results eng vz p limit offset)) = _
    rw [ht, hc]
    rfl
  rw [hs]
  exact ⟨mem_apply_circle loc _ limit clng clat r h1 h2 h3,
    sorted_apply_circle loc _ limit clng clat r h1 h2 h3,
    length_apply_circle loc _ limit⟩

/-- C5 (witness): the amended statement at the 200 km circle request against
the trivial engine. -/
theorem C5_circle_postfilter_amended_witness :
    (∀ x ∈ search_houses engOk vzUnit pCircle 10 0,
      calculate_distance_km 0 0 x.doc.latitude x.doc.longitude ≤ 200 ∧
      x.distanceKm =
        some (pyRound2 (calculate_distance_km 0 0 x.doc.latitude x.doc.longitude))) ∧
    List.Pairwise (fun a b => sort_key_distance a ≤ sort_key_distance b)
      (search_houses engOk vzUnit pCircle 10 0) ∧
    (search_houses engOk vzUnit pCircle 10 0).length ≤ 10 :=
  C5_circle_postfilter_amended engOk vzUnit pCircle 10 0 circleLoc200 0 0 200
    rfl rfl rfl rfl


theorem order_stage_none_eq (limit : ℕ) (res : List OutHouse) :
    order_stage none limit res = sort_stage res :=
  rfl

theorem order_stage_some_true (loc : LocationParam) (limit : ℕ) (res : List OutHouse)
    (h : (loc.truthy && is_circle_search loc) = true) :
    order_stage (some loc) limit res = apply_circle_distance_filter loc res limit := by
  show (if (loc.truthy && is_circle_search loc) = true then
      apply_circle_distance_filter loc res limit else sort_stage res) =
    apply_circle_distance_filter loc res limit
  rw [h]
  rfl

theorem order_stage_some_false (loc : LocationParam) (limit : ℕ) (res : List OutHouse)
    (h : (loc.truthy && is_circle_search loc) = false) :
    order_stage (some loc) limit res = sort_stage res := by
  show (if (loc.truthy && is_circle_search loc) = true then
      apply_circle_distance_filter loc res limit else sort_stage res) = sort_stage res
  rw [h]
  rfl

theorem is_circle_params_some (p : SearchParams) (loc : LocationParam)
    (hl : p.location = some loc) :
    is_circle_params p = (loc.truthy && is_circle_search loc) := by
  unfold is_circle_params
  rw [hl]

theorem is_circle_params_none (p : SearchParams) (hl : p.location = none) :
    is_circle_params p = false := by
  unfold is_circle_params
  rw [hl]

/-- C6: ordering of the final result list.  (1) When the request used a
circular geo region (truthy `location` with the three circle keys), the
attached `distance_km` sort keys are non-decreasing across the list.  (2)
Otherwise, when the first assembled row carries a `similarity_score`, the
scores are non-increasing.  (3) Otherwise the assembled (storage-engine)
order is preserved unchanged. -/
theorem C6_ordering_policy (eng : Engine) (vz : Vectorizer) (p : SearchParams)
    (limit offset : ℕ) :
    (is_circle_params p = true →
      List.Pairwise (fun a b => sort_key_distance a ≤ sort_key_distance b)
        (search_houses eng vz p limit offset)) ∧
    (is_circle_params p = false →
      head_scored (assembled_results eng vz p limit offset) = true →
      List.Pairwise (fun a b => sim_score_key b ≤ sim_score_key a)
        (search_houses eng vz p limit offset)) ∧
    (is_circle_params p = false →
      head_scored (assembled_results eng vz p limit offset) = false →
      search_houses eng vz p limit offset = assembled_results eng vz p limit offset) := by
  rw [search_houses_eq]
  have hsortcase :
      (head_scored (assembled_results eng vz p limit offset) = true →
        List.Pairwise (fun a b => sim_score_key b ≤ sim_score_key a)
          (sort_stage (assembled_results eng vz p limit offset))) ∧
      (head_scored (assembled_results eng vz p limit offset) = false →
        sort_stage (assembled_results eng vz p limit offset) =
          assembled_results eng vz p limit offset) := by
    constructor
    · intro hhead
      cases hres : assembled_results eng vz p limit offset with
      | nil =>
        rw [hres] at hhead
        exact absurd hhead (by simp [head_scored])
      | cons a as =>
        rw [hres] at hhead
        have ha : a.similarityScore.isSome = true := hhead
        simp only [sort_stage, ha, if_true]
        exact pairwise_sim_sorted (a :: as)
    · intro hhead
      exact sort_stage_unscored _ hhead
  cases hl : p.location with
  | none =>
    rw [order_stage_none_eq, is_circle_params_none p hl]
    exact ⟨fun h => absurd h (by simp), fun _ => hsortcase.1, fun _ => hsortcase.2⟩
  | some loc =>
    rw [is_circle_params_some p loc hl]
    by_cases hcirc : (loc.truthy && is_circle_search loc) = true
    · rw [hcirc, order_stage_some_true loc limit _ hcirc]
      refine ⟨fun _ => ?_, fun h => absurd h (by simp), fun h => absurd h (by simp)⟩
      cases hj1 : loc.centerLongitude.join with
      | some clng =>
        cases hj2 : loc.centerLatitude.join with
        | some clat =>
          cases hj3 : loc.radiusKm.join with
          | some r =>
            exact sorted_apply_circle loc _ limit clng clat r
              (Option.join_eq_some.mp hj1) (Option.join_eq_some.mp hj2)
              (Option.join_eq_some.mp hj3)
          | none =>
            unfold apply_circle_distance_filter
            rw [hj1, hj2, hj3]
            exact (pairwise_top _ (assembled_distanceKm_none eng vz p limit offset)).sublist
              (List.take_sublist _ _)
        | none =>
          unfold apply_circle_distance_filter
          rw [hj1, hj2]
          exact (pairwise_top _ (assembled_distanceKm_none eng vz p limit offset)).sublist
            (List.take_sublist _ _)
      | none =>
        unfold apply_circle_distance_filter
        rw [hj1]
        exact (pairwise_top _ (assembled_distanceKm_none eng vz p limit offset)).sublist
          (List.take_sublist _ _)
    · have hcirc2 : (loc.truthy && is_circle_search loc) = false := by
        simpa using hcirc
      rw [hcirc2, order_stage_some_false loc limit _ hcirc2]
      exact ⟨fun h => absurd h (by simp), fun _ => hsortcase.1, fun _ => hsortcase.2⟩

/-- C6 (witness): the circle conjunct at the 200 km circle request against
the trivial engine. -/
theorem C6_ordering_policy_witness :
    List.Pairwise (fun a b => sort_key_distance a ≤ sort_key_distance b)
      (search_houses engOk vzUnit pCircle 10 0) :=
  (C6_ordering_policy engOk vzUnit pCircle 10 0).1 rfl

theorem search_houses_exc_eq_map (eng : Engine) (vz : Vectorizer) (p : SearchParams)
    (limit offset : ℕ) :
    search_houses_exc eng vz p limit offset =
      Except.map (order_stage p.location limit)
        (assemble_results eng vz (build_filter_expression p)
          (py_lower (pyOrStr p.retrievalType "vector"))
          (pyOr p.userQueryText p.semanticStr) p.confidence p.hybridWeights
          limit offset) := by
  show Except.bind (assemble_results eng vz (build_filter_expression p)
      (py_lower (pyOrStr p.retrievalType "vector"))
      (pyOr p.userQueryText p.semanticStr) p.confidence p.hybridWeights limit offset)
      (fun results => pure (order_stage p.location limit results)) = _
  cases assemble_results eng vz (build_filter_expression p)
      (py_lower (pyOrStr p.retrievalType "vector"))
      (pyOr p.userQueryText p.semanticStr) p.confidence p.hybridWeights limit offset with
  | ok r => rfl
  | error e => rfl

/-- C7: paging.  With an engine whose filter query honours its `limit`
argument, (1) `search_houses` never returns more than `limit` rows; and in
the scored retrieval paths the backing search is issued with `limit + offset`
candidates and the offset is consumed exactly once: (2) in vector mode the
body equals the single vector-search call over-fetching `limit + offset`
followed by one `drop offset` and one `take limit`; (3) likewise for BM25;
(4) likewise for a successful hybrid (fusion) call. -/
theorem C7_limit_offset (eng : Engine) (vz : Vectorizer) (p : SearchParams)
    (limit offset : ℕ) (qt : String)
    (hq : ∀ f l o r, eng.query f l o = Except.ok r → r.length ≤ l) :
    (search_houses eng vz p limit offset).length ≤ limit ∧
    (py_lower (pyOrStr p.retrievalType "vector") = "vector" →
      pyOr p.userQueryText p.semanticStr = some qt →
      search_houses_exc eng vz p limit offset =
        Except.map
          (fun hits => order_stage p.location limit
            (((hits.map hit_to_result).drop offset).take limit))
          (eng.vectorSearch (create_query_vector vz qt)
            (pyTruthyFilter (build_filter_expression p)) (limit + offset)
            (build_milvus_search_params p.confidence))) ∧
    (py_lower (pyOrStr p.retrievalType "vector") = "bm25" →
      pyOr p.userQueryText p.semanticStr = some qt →
      search_houses_exc eng vz p limit offset =
        Except.map
          (fun hits => order_stage p.location limit
            (((hits.map hit_to_result).drop offset).take limit))
          (eng.bm25Search qt (pyTruthyFilter (build_filter_expression p))
            (limit + offset))) ∧
    (∀ hits, py_lower (pyOrStr p.retrievalType "vector") = "hybrid" →
      pyOr p.userQueryText p.semanticStr = some qt →
      eng.hybridSearch (create_query_vector vz qt) qt
          (build_milvus_search_params p.confidence)
          ((build_filter_expression p).getD []) (limit + offset)
          ((p.hybridWeights.getD default).vector.getD 0.5)
          ((p.hybridWeights.getD default).bm25.getD 0.5)
          ((p.hybridWeights.getD default).normScore.getD true) = Except.ok hits →
      search_houses_exc eng vz p limit offset =
        Except.ok (order_stage p.location limit
          (((hits.map hit_to_result).drop offset).take limit))) := by
  refine ⟨?_, ?_, ?_, ?_⟩
  · rw [search_houses_eq]
    exact length_order_stage_le _ _ _ (length_assembled_le eng vz p limit offset hq)
  · intro hrt hqt
    rw [search_houses_exc_eq_map, hrt, hqt]
    have hassm : assemble_results eng vz (build_filter_expression p) "vector" (some qt)
        p.confidence p.hybridWeights limit offset =
        Except.map (fun hits => pySlice (hits.map hit_to_result) offset (offset + limit))
          (eng.vectorSearch (create_query_vector vz qt)
            (pyTruthyFilter (build_filter_expression p)) (limit + offset)
            (build_milvus_search_params p.confidence)) := by
      have hgen : ∀ V : Except String (List Hit),
          Except.bind
            (Except.bind V (fun h2 => (pure (some h2) : Except String (Option (List Hit)))))
            (fun sr => (match sr with
              | some hits => pure (pySlice (hits.map hit_to_result) offset (offset + limit))
              | none =>
                match pyTruthyFilter (build_filter_expression p) with
                | some f => Except.bind (eng.query f limit offset)
                    (fun rows => pure (rows.map row_to_result))
                | none => pure [] : Except String (List OutHouse))) =
          Except.map (fun hits => pySlice (hits.map hit_to_result) offset (offset + limit))
            V := by
        intro V
        cases V with
        | ok hits => rfl
        | error e => rfl
      exact hgen (eng.vectorSearch (create_query_vector vz qt)
        (pyTruthyFilter (build_filter_expression p)) (limit + offset)
        (build_milvus_search_params p.confidence))
    rw [hassm]
    cases hv : eng.vectorSearch (create_query_vector vz qt)
        (pyTruthyFilter (build_filter_expression p)) (limit + offset)
        (build_milvus_search_params p.confidence) with
    | error e => rfl
    | ok hits =>
      show Except.ok (order_stage p.location limit
          (pySlice (hits.map hit_to_result) offset (offset + limit))) = _
      rw [pySlice_eq_take_drop]
      rfl
  · intro hrt hqt
    rw [search_houses_exc_eq_map, hrt, hqt]
    have hassm : assemble_results eng vz (build_filter_expression p) "bm25" (some qt)
        p.confidence p.hybridWeights limit offset =
        Except.map (fun hits => pySlice (hits.map hit_to_result) offset (offset + limit))
          (eng.bm25Search qt (pyTruthyFilter (build_filter_expression p))
            (limit + offset)) := by
      have hgen : ∀ V : Except String (List Hit),
          Except.bind
            (Except.bind V (fun h2 => (pure (some h2) : Except String (Option (List Hit)))))
            (fun sr => (match sr with
              | some hits => pure (pySlice (hits.map hit_to_result) offset (offset + limit))
              | none =>
                match pyTruthyFilter (build_filter_expression p) with
                | some f => Except.bind (eng.query f limit offset)
                    (fun rows => pure (rows.map row_to_result))
                | none => pure [] : Except String (List OutHouse))) =
          Except.map (fun hits => pySlice (hits.map hit_to_result) offset (offset + limit))
            V := by
        intro V
        cases V with
        | ok hits => rfl
        | error e => rfl
      exact hgen (eng.bm25Search qt (pyTruthyFilter (build_filter_expression p))
        (limit + offset))
    rw [hassm]
    cases hv : eng.bm25Search qt (pyTruthyFilter (build_filter_expression p))
        (limit + offset) with
    | error e => rfl
    | ok hits =>
      show Except.ok (order_stage p.location limit
          (pySlice (hits.map hit_to_result) offset (offset + limit))) = _
      rw [pySlice_eq_take_drop]
      rfl
  · intro hits hrt hqt hok
    rw [search_houses_exc_eq_map, hrt, hqt]
    have hrun : run_retrieval eng vz (build_filter_expression p) "hybrid" (some qt)
        p.confidence p.hybridWeights (limit + offset) = Except.ok (some hits) := by
      show (match eng.hybridSearch (create_query_vector vz qt) qt
          (build_milvus_search_params p.confidence)
          ((build_filter_expression p).getD []) (limit + offset)
          ((p.hybridWeights.getD default).vector.getD 0.5)
          ((p.hybridWeights.getD default).bm25.getD 0.5)
          ((p.hybridWeights.getD default).normScore.getD true) with
        | Except.ok h2 => (pure (some h2) : Except String (Option (List Hit)))
        | Except.error _ =>
            Except.bind (eng.vectorSearch (create_query_vector vz qt)
              (pyTruthyFilter (build_filter_expression p)) (limit + offset)
              (build_milvus_search_params p.confidence))
              (fun h2 => pure (some h2))) = Except.ok (some hits)
      rw [hok]
      rfl
    have hassm : assemble_results eng vz (build_filter_expression p) "hybrid" (some qt)
        p.confidence p.hybridWeights limit offset =
        Except.ok (pySlice (hits.map hit_to_result) offset (offset + limit)) := by
      unfold assemble_results
      rw [hrun]
      rfl
    rw [hassm]
    show Except.ok (order_stage p.location limit
        (pySlice (hits.map hit_to_result) offset (offset + limit))) = _
    rw [pySlice_eq_take_drop]

/-- C7 (witness): the paging statements instantiated at the trivial engine:
part (1) and part (2) at the default-vector request, part (3) at the BM25
request, part (4) at the hybrid request with the fusion call succeeding. -/
theorem C7_limit_offset_witness :
    ((search_houses engOk vzUnit pVec 10 0).length ≤ 10 ∧
      search_houses_exc engOk vzUnit pVec 10 0 =
        Except.map
          (fun hits => order_stage pVec.location 10
            (((hits.map hit_to_result).drop 0).take 10))
          (engOk.vectorSearch (create_query_vector vzUnit "学区房")
            (pyTruthyFilter (build_filter_expression pVec)) (10 + 0)
            (build_milvus_search_params pVec.confidence))) ∧
    search_houses_exc engOk vzUnit pBm25 10 0 =
      Except.map
        (fun hits => order_stage pBm25.location 10
          (((hits.map hit_to_result).drop 0).take 10))
        (engOk.bm25Search "学区房" (pyTruthyFilter (build_filter_expression pBm25))
          (10 + 0)) ∧
    search_houses_exc engOk vzUnit pHybrid 10 0 =
      Except.ok (order_stage pHybrid.location 10
        ((([].map hit_to_result).drop 0).take 10)) := by
  have hq : ∀ f l o r, engOk.query f l o = Except.ok r → r.length ≤ l := by
    intro f l o r h
    have : r = [] := by
      have h2 : (Except.ok [] : Except String (List HouseDoc)) = Except.ok r := h
      exact (Except.ok.injEq _ _).mp h2.symm ▸ rfl
    rw [this]
    exact Nat.zero_le _
  refine ⟨⟨(C7_limit_offset engOk vzUnit pVec 10 0 "学区房" hq).1,
    (C7_limit_offset engOk vzUnit pVec 10 0 "学区房" hq).2.1 rfl rfl⟩,
    (C7_limit_offset engOk vzUnit pBm25 10 0 "学区房" hq).2.2.1 rfl rfl,
    (C7_limit_offset engOk vzUnit pHybrid 10 0 "学区房" hq).2.2.2 [] rfl rfl rfl⟩

theorem search_houses_congr (eng : Engine) (vz : Vectorizer) (p q : SearchParams)
    (limit offset : ℕ)
    (hf : build_filter_expression p = build_filter_expression q)
    (h1 : p.retrievalType = q.retrievalType) (h2 : p.userQueryText = q.userQueryText)
    (h3 : p.semanticStr = q.semanticStr) (h4 : p.confidence = q.confidence)
    (h5 : p.hybridWeights = q.hybridWeights) (h6 : p.location = q.location) :
    search_houses eng vz p limit offset = search_houses eng vz q limit offset := by
  unfold search_houses search_houses_exc
  rw [hf, h1, h2, h3, h4, h5, h6]

/-- C8: a multi-value filter supplied as an empty list compiles to the same
filter expression as omitting the field, and therefore yields the same search
results; it never compiles to a match-nothing condition.  Stated for both
`name: []` and `category: []` against an arbitrary request. -/
theorem C8_empty_list_filters (eng : Engine) (vz : Vectorizer) (p : SearchParams)
    (limit offset : ℕ) :
    build_filter_expression { p with name := some (NameParam.multi []) } =
      build_filter_expression { p with name := none } ∧
    build_filter_expression { p with category := some (CategoryParam.multi []) } =
      build_filter_expression { p with category := none } ∧
    search_houses eng vz { p with name := some (NameParam.multi []) } limit offset =
      search_houses eng vz { p with name := none } limit offset ∧
    search_houses eng vz { p with category := some (CategoryParam.multi []) } limit offset =
      search_houses eng vz { p with category := none } limit offset := by
  have hname : build_filter_expression { p with name := some (NameParam.multi []) } =
      build_filter_expression { p with name := none } := rfl
  have hcat : build_filter_expression { p with category := some (CategoryParam.multi []) } =
      build_filter_expression { p with category := none } := rfl
  exact ⟨hname, hcat,
    search_houses_congr eng vz _ _ limit offset hname rfl rfl rfl rfl rfl rfl,
    search_houses_congr eng vz _ _ limit offset hcat rfl rfl rfl rfl rfl rfl⟩

/-- C9 (counterexample): the claim says that with no query text and no filter
field set, the compiled null filter means match-everything, so the request
still returns the stored candidates.  Against an engine whose store holds one
listing (every filter query returns it), the empty request returns the empty
list: the engine is never consulted. -/
theorem C9_no_filter_empty_counterexample :
    search_houses engStore vzUnit emptyParams 10 0 = [] ∧
    engStore.query [] 10 0 = Except.ok [docA] :=
  ⟨rfl, rfl⟩

/-- C9 (amended): with no query text supplied, the executor performs a pure
filtered listing only when at least one filter condition was compiled: the
engine query is issued with `limit`/`offset` and (outside the circular geo
branch) its rows are returned in engine order; when no filter field is set at
all, the executor returns the empty list without consulting the engine. -/
theorem C9_no_query_amended (eng : Engine) (vz : Vectorizer) (p : SearchParams)
    (limit offset : ℕ) (f : List Cond) (rows : List HouseDoc)
    (hqt : pyOr p.userQueryText p.semanticStr = none) :
    (build_filter_expression p = none → search_houses eng vz p limit offset = []) ∧
    (pyTruthyFilter (build_filter_expression p) = some f →
      eng.query f limit offset = Except.ok rows →
      is_circle_params p = false →
      search_houses eng vz p limit offset = rows.map row_to_result) := by
  have hrunE : run_retrieval eng vz (build_filter_expression p)
      (py_lower (pyOrStr p.retrievalType "vector")) (pyOr p.userQueryText p.semanticStr)
      p.confidence p.hybridWeights (limit + offset) = Except.ok none := by
    rw [hqt]
    rfl
  have hassm : assemble_results eng vz (build_filter_expression p)
      (py_lower (pyOrStr p.retrievalType "vector")) (pyOr p.userQueryText p.semanticStr)
      p.confidence p.hybridWeights limit offset =
      (match pyTruthyFilter (build_filter_expression p) with
        | some f2 => Except.bind (eng.query f2 limit offset)
            (fun rows2 => pure (rows2.map row_to_result))
        | none => pure ([] : List OutHouse)) := by
    unfold assemble_results
    rw [hrunE]
    rfl
  constructor
  · intro hnone
    have h2 : assemble_results eng vz (build_filter_expression p)
        (py_lower (pyOrStr p.retrievalType "vector")) (pyOr p.userQueryText p.semanticStr)
        p.confidence p.hybridWeights limit offset = Except.ok [] := by
      rw [hassm, hnone]
      rfl
    unfold search_houses
    rw [search_houses_exc_eq_map, h2]
    show order_stage p.location limit [] = []
    exact order_stage_nil p.location limit
  · intro hf hrows hcirc
    have h2 : assemble_results eng vz (build_filter_expression p)
        (py_lower (pyOrStr p.retrievalType "vector")) (pyOr p.userQueryText p.semanticStr)
        p.confidence p.hybridWeights limit offset = Except.ok (rows.map row_to_result) := by
      rw [hassm, hf]
      show Except.bind (eng.query f limit offset)
        (fun rows2 => pure (rows2.map row_to_result)) = Except.ok (rows.map row_to_result)
      rw [hrows]
      rfl
    unfold search_houses
    rw [search_houses_exc_eq_map, h2]
    show order_stage p.location limit (rows.map row_to_result) = rows.map row_to_result
    cases hl : p.location with
    | none =>
      rw [order_stage_none_eq]
      exact sort_stage_map_row rows
    | some loc =>
      have hcirc2 : (loc.truthy && is_circle_search loc) = false := by
        rw [← is_circle_params_some p loc hl]
        exact hcirc
      rw [order_stage_some_false loc limit _ hcirc2]
      exact sort_stage_map_row rows

/-- C9 (witness): the no-filter half of the amended statement at the empty
request against the trivial engine. -/
theorem C9_no_query_amended_witness :
    search_houses engOk vzUnit emptyParams 10 0 = [] :=
  (C9_no_query_amended engOk vzUnit emptyParams 10 0 [] [] rfl).1 rfl

/-- C10 (counterexample): the claim says backend failures propagate to the
caller as a discriminated failure, distinguishable from an empty match.  The
body of `search_houses` does raise (`search_houses_exc` is an error when the
vector search fails), but the outer handler swallows it: the caller receives
`[]`, exactly what a successful search with zero matches returns — the two
engines below are indistinguishable at the service boundary. -/
theorem C10_failure_indistinguishable_counterexample :
    search_houses_exc engFail vzUnit pVec 10 0 = Except.error "db down" ∧
    search_houses engFail vzUnit pVec 10 0 = [] ∧
    search_houses engOk vzUnit pVec 10 0 = [] :=
  ⟨rfl, rfl, rfl⟩

/-- C10 (amended): every failure of the search body is caught by the outer
handler and returned to the caller as the empty list; the service never
propagates a search failure, so a failed search is not distinguishable from a
zero-match success in the returned value. -/
theorem C10_failure_swallowed_amended (eng : Engine) (vz : Vectorizer)
    (p : SearchParams) (limit offset : ℕ) (e : String)
    (h : search_houses_exc eng vz p limit offset = Except.error e) :
    search_houses eng vz p limit offset = [] := by
  unfold search_houses
  rw [h]

/-- C10 (witness): the amended statement at the failing engine. -/
theorem C10_failure_swallowed_amended_witness :
    search_houses engFail vzUnit pVec 10 0 = [] :=
  C10_failure_swallowed_amended engFail vzUnit pVec 10 0 "db down" rfl
